import Mathlib

/-! Device lifecycle and update orchestration of the synaptics-mst and thunderbolt plugins.

A shallow embedding of `plugins/synaptics-mst/fu-plugin-synaptics-mst.c` and
`plugins/thunderbolt/fu-plugin-thunderbolt.c`.

* A `FuDevice *` is a handle (`Nat`) into the heap `PluginState.dev`.
* A C function returning `gboolean` with a `GError **` out-parameter returns a `GResult`
  together with the new state; a `void` function returns the new state only.
* The hardware (device open, rescan, firmware write) is an environment `Hw`: each operation
  has an outcome that may depend on the whole state, history included.
* `PluginState.trace` is ghost state: the sequence of calls the plugin made, used to state
  ordering properties (what was called, on which device, under which lock).
-/

namespace FwupdPlugins

/-! ## Data model -/

/-- The error carried through a `GError **` out-parameter. -/
structure GError where
  code : Nat
deriving DecidableEq, Repr

/-- Return value of a `gboolean f (..., GError **error)` function. -/
inductive GResult where
  | TRUE : GResult
  | FALSE (error : GError) : GResult
deriving DecidableEq, Repr

/-- The `FWUPD_DEVICE_FLAG_*` values the plugins test or set, and a stand-in for the rest. -/
inductive FwupdDeviceFlag where
  | UPDATABLE
  | REGISTERED
  | USABLE_DURING_UPDATE
  | SKIPS_RESTART
  | OTHER (bit : Nat)
deriving DecidableEq, Repr

/-- The `FU_DEVICE_INTERNAL_FLAG_*` values. -/
inductive FuDeviceInternalFlag where
  | REPLUG_MATCH_GUID
  | OTHER (bit : Nat)
deriving DecidableEq, Repr

/-- The fields of a `FuDevice` object that the two plugins read or write. -/
structure FuDevice where
  /-- `FU_IS_UDEV_DEVICE (device)` -/
  is_udev_device : Bool
  /-- `fu_udev_device_get_subsystem`, `none` for a NULL string -/
  subsystem : Option String
  /-- `fu_device_get_plugin`, `none` for a NULL string -/
  plugin : Option String
  flags : List FwupdDeviceFlag
  internal_flags : List FuDeviceInternalFlag
  /-- number of lockers currently holding the device open; 0 is unlocked -/
  open_refcount : Nat
deriving DecidableEq, Repr

/-- Modelled from the spec: fu_device_has_flag (libfwupdplugin), membership of a capability flag. -/
def fu_device_has_flag (device : FuDevice) (flag : FwupdDeviceFlag) : Bool :=
  decide (flag ∈ device.flags)

/-- Modelled from the spec: fu_device_add_flag (libfwupdplugin), sets one capability flag and
leaves the others as they are. -/
def fu_device_add_flag (device : FuDevice) (flag : FwupdDeviceFlag) : FuDevice :=
  if flag ∈ device.flags then device else { device with flags := device.flags ++ [flag] }

/-- Modelled from the spec: fu_device_remove_flag (libfwupdplugin), clears one capability flag. -/
def fu_device_remove_flag (device : FuDevice) (flag : FwupdDeviceFlag) : FuDevice :=
  { device with flags := device.flags.filter (fun f => decide (f ≠ flag)) }

/-- Modelled from the spec: fu_device_remove_internal_flag (libfwupdplugin), clears one
internal flag; the capability flags are not touched. -/
def fu_device_remove_internal_flag (device : FuDevice) (flag : FuDeviceInternalFlag) :
    FuDevice :=
  { device with internal_flags := device.internal_flags.filter (fun f => decide (f ≠ flag)) }

/-- The configuration keys of section 6 of the specification, as read by
`fu_plugin_get_config_value` and `fu_plugin_get_config_value_boolean`. -/
structure Config where
  MinimumKernelVersion : Option String
  MinimumAmdGpuKernelVersion : Option String
  DelayedActivation : Bool
deriving DecidableEq, Repr

/-! ## thunderbolt: `fu_plugin_device_registered` -/

/-- `g_strcmp0 (a, b) == 0` for a possibly-NULL `a` and a literal `b`. -/
def g_strcmp0_eq (a : Option String) (b : String) : Bool :=
  match a with
  | none => false
  | some s => decide (s = b)

/-- `fu_plugin_device_registered` of fu-plugin-thunderbolt.c. -/
def fu_plugin_device_registered (cfg : Config) (device : FuDevice) : FuDevice :=
  if !(g_strcmp0_eq device.plugin "thunderbolt") then
    device
  else if cfg.DelayedActivation &&
      !(fu_device_has_flag device FwupdDeviceFlag.USABLE_DURING_UPDATE) then
    fu_device_remove_internal_flag
      (fu_device_add_flag
        (fu_device_add_flag device FwupdDeviceFlag.USABLE_DURING_UPDATE)
        FwupdDeviceFlag.SKIPS_RESTART)
      FuDeviceInternalFlag.REPLUG_MATCH_GUID
  else
    device

/-! ## synaptics-mst: the kernel safety gate -/

/-- What `g_file_test` and `g_file_get_contents` find at `/proc/modules`. -/
inductive ProcModules where
  | missing : ProcModules
  | unreadable (error : GError) : ProcModules
  | contents (buf : List Char) : ProcModules
deriving DecidableEq, Repr

/-- The error `fu_common_check_kernel_version` sets when the kernel is too old. -/
def kernel_too_old : GError := { code := 1 }

/-- Modelled from the spec: fu_common_check_kernel_version (libfwupdplugin): compares the
running kernel version against the configured minimum; success if the running version is
greater or equal, else an error naming the unmet requirement. `vercmp` is the version
comparison (negative, zero or positive) and `running` the release the kernel reports. -/
def fu_common_check_kernel_version (vercmp : String → String → Int) (running : String)
    (minimum_kernel : String) : GResult :=
  if vercmp running minimum_kernel < 0 then GResult.FALSE kernel_too_old else GResult.TRUE

/-- A C string ends at its first NUL byte. -/
def c_string (buf : List Char) : List Char :=
  buf.takeWhile (fun c => decide (c ≠ Char.ofNat 0))

/-- The tokens of a non-empty string split at line feeds; `cur` is the token being read,
reversed. -/
def g_strsplit_lines_from : List Char → List Char → List (List Char)
  | [], cur => [cur.reverse]
  | c :: cs, cur =>
    if c = Char.ofNat 10 then cur.reverse :: g_strsplit_lines_from cs []
    else g_strsplit_lines_from cs (c :: cur)

/-- `g_strsplit (buf, "\n", -1)`: the empty string gives the empty vector. -/
def g_strsplit_lines (buf : List Char) : List (List Char) :=
  match c_string buf with
  | [] => []
  | c :: cs => g_strsplit_lines_from (c :: cs) []

/-- `g_str_has_prefix (str, prefix)`. -/
def g_str_has_prefix (str : List Char) (pfx : String) : Bool :=
  pfx.data.isPrefixOf str

/-- The `for` loop of `fu_synaptics_mst_check_amdgpu_safe` over the lines of /proc/modules. -/
def check_amdgpu_lines (vercmp : String → String → Int) (running : String)
    (minimum_kernel : String) : List (List Char) → GResult
  | [] => GResult.TRUE
  | line :: rest =>
    if ( g_str_has_prefix line "amdgpu ") then
      fu_common_check_kernel_version vercmp running minimum_kernel
    else
      check_amdgpu_lines vercmp running minimum_kernel rest

/-- `fu_synaptics_mst_check_amdgpu_safe` of fu-plugin-synaptics-mst.c. -/
def fu_synaptics_mst_check_amdgpu_safe (vercmp : String → String → Int) (running : String)
    (cfg : Config) (proc_modules : ProcModules) : GResult :=
  match cfg.MinimumAmdGpuKernelVersion with
  | none => GResult.TRUE
  | some minimum_kernel =>
    match proc_modules with
    | ProcModules.missing => GResult.TRUE
    | ProcModules.unreadable error => GResult.FALSE error
    | ProcModules.contents buf =>
      check_amdgpu_lines vercmp running minimum_kernel (g_strsplit_lines buf)

/-- `fu_plugin_startup` of fu-plugin-synaptics-mst.c. -/
def fu_plugin_startup (vercmp : String → String → Int) (running : String)
    (cfg : Config) (proc_modules : ProcModules) : GResult :=
  fu_synaptics_mst_check_amdgpu_safe vercmp running cfg proc_modules

/-- Some line of /proc/modules starts with `amdgpu `: the module is loaded. -/
def amdgpu_loaded (buf : List Char) : Bool :=
  (g_strsplit_lines buf).any (fun line => ( g_str_has_prefix line "amdgpu "))

/-! ## synaptics-mst: plugin state and environment -/

/-- Ghost record of one call made by the plugin. -/
inductive Event where
  /-- `fu_device_locker_new` returned a locker -/
  | lock_ok (device : Nat)
  /-- `fu_device_locker_new` returned NULL -/
  | lock_failed (device : Nat)
  /-- a locker went out of scope and closed the device -/
  | unlock (device : Nat)
  | rescan (device : Nat) (ok : Bool)
  | write_firmware (device : Nat) (ok : Bool)
  | device_add (device : Nat)
  | device_remove (device : Nat)
  /-- `fu_plugin_synaptics_mst_rescan_cb` started, at this clock value -/
  | rescan_cb (now : Nat)
deriving DecidableEq, Repr

/-- `FuPluginData` of the synaptics-mst plugin together with what it acts on: the device
objects, the host's list of devices registered by this plugin, and the timeout sources of the
main loop. Times are in microseconds. -/
structure PluginState where
  /-- the device objects, by handle -/
  dev : Nat → FuDevice
  /-- the handle the next `g_object_new` returns -/
  next_handle : Nat
  /-- the Registry: devices added with `fu_plugin_device_add` and not removed since -/
  registry : List Nat
  /-- `priv->devices` -/
  devices : List Nat
  /-- `priv->drm_changed_id` -/
  drm_changed_id : Nat
  /-- the clock of the main loop -/
  now : Nat
  /-- the attached timeout sources: identifier and time at which each is due -/
  sources : List (Nat × Nat)
  /-- the last source identifier handed out -/
  last_source_id : Nat
  trace : List Event

abbrev GBytes := List Nat

abbrev FwupdInstallFlags := Nat

/-- The device hardware as the plugin sees it: whether opening, rescanning and writing a
device succeed (`none`) or fail with an error. Each outcome may depend on the whole state. -/
structure Hw where
  open_result : PluginState → Nat → Option GError
  rescan_result : PluginState → Nat → Option GError
  write_result : PluginState → Nat → GBytes → FwupdInstallFlags → Option GError

def log (st : PluginState) (e : Event) : PluginState :=
  { st with trace := st.trace ++ [e] }

def set_dev (st : PluginState) (device : Nat) (v : FuDevice) : PluginState :=
  { st with dev := Function.update st.dev device v }

/-- Modelled from the spec: fu_device_locker_new (libfwupdplugin), the Scoped Locker's acquire:
opens the device and returns a locker, or fails with the error of the open and leaves the
device as it was. The environment decides whether the open succeeds; it sees the state, so a
locker that refuses an already locked device is one of its instances. -/
def fu_device_locker_new (hw : Hw) (st : PluginState) (device : Nat) :
    GResult × PluginState :=
  match hw.open_result st device with
  | some error => (GResult.FALSE error, log st (Event.lock_failed device))
  | none =>
    (GResult.TRUE,
     log (set_dev st device
            { st.dev device with open_refcount := (st.dev device).open_refcount + 1 })
         (Event.lock_ok device))

/-- Modelled from the spec: the release of a Scoped Lock, run by `g_autoptr(FuDeviceLocker)`
when the locker leaves scope; releasing an unlocked device is a no-op. -/
def fu_device_locker_release (st : PluginState) (device : Nat) : PluginState :=
  log (set_dev st device
         { st.dev device with open_refcount := (st.dev device).open_refcount - 1 })
      (Event.unlock device)

/-- Modelled from the spec: fu_device_rescan (libfwupdplugin), the Device Handle's rescan. -/
def fu_device_rescan (hw : Hw) (st : PluginState) (device : Nat) : GResult × PluginState :=
  match hw.rescan_result st device with
  | some error => (GResult.FALSE error, log st (Event.rescan device false))
  | none => (GResult.TRUE, log st (Event.rescan device true))

/-- Modelled from the spec: fu_device_write_firmware (libfwupdplugin), the Device Handle's
firmware write. -/
def fu_device_write_firmware (hw : Hw) (st : PluginState) (device : Nat) (blob_fw : GBytes)
    (flags : FwupdInstallFlags) : GResult × PluginState :=
  match hw.write_result st device blob_fw flags with
  | some error => (GResult.FALSE error, log st (Event.write_firmware device false))
  | none => (GResult.TRUE, log st (Event.write_firmware device true))

/-- Modelled from the spec: fu_plugin_device_add (libfwupdplugin), the Registry's idempotent
add: the device becomes a member and is marked registered. -/
def fu_plugin_device_add (st : PluginState) (device : Nat) : PluginState :=
  log { set_dev st device (fu_device_add_flag (st.dev device) FwupdDeviceFlag.REGISTERED) with
        registry := if device ∈ st.registry then st.registry else st.registry ++ [device] }
      (Event.device_add device)

/-- Modelled from the spec: fu_plugin_device_remove (libfwupdplugin), the Registry's remove:
the entry is dropped and the device unregistered; a no-op on the Registry if absent. -/
def fu_plugin_device_remove (st : PluginState) (device : Nat) : PluginState :=
  log { set_dev st device (fu_device_remove_flag (st.dev device) FwupdDeviceFlag.REGISTERED) with
        registry := st.registry.filter (fun d => decide (d ≠ device)) }
      (Event.device_remove device)

/-! ## synaptics-mst: rescan -/

/-- `fu_plugin_synaptics_mst_device_rescan` of fu-plugin-synaptics-mst.c (`rescan_one`). -/
def fu_plugin_synaptics_mst_device_rescan (hw : Hw) (st : PluginState) (device : Nat) :
    PluginState :=
  match fu_device_locker_new hw st device with
  | (GResult.FALSE _, st1) => st1
  | (GResult.TRUE, st1) =>
    match fu_device_rescan hw st1 device with
    | (GResult.FALSE _, st2) =>
      if fu_device_has_flag (st2.dev device) FwupdDeviceFlag.REGISTERED then
        fu_device_locker_release (fu_plugin_device_remove st2 device) device
      else
        fu_device_locker_release st2 device
    | (GResult.TRUE, st2) =>
      fu_device_locker_release (fu_plugin_device_add st2 device) device

/-- The `for` loop of `fu_plugin_synaptics_mst_rescan`, from index `i`: the length of
`priv->devices` is read again at every iteration. -/
def rescan_loop (hw : Hw) (i : Nat) (st : PluginState) : PluginState :=
  if h : i < st.devices.length then
    rescan_loop hw (i + 1)
      (fu_plugin_synaptics_mst_device_rescan hw st (st.devices.get ⟨i, h⟩))
  else
    st
termination_by st.devices.length - i
decreasing_by
  have hdev : ∀ d, (fu_plugin_synaptics_mst_device_rescan hw st d).devices = st.devices := by
    intro d
    unfold fu_plugin_synaptics_mst_device_rescan fu_device_locker_new fu_device_rescan
    cases hw.open_result st d <;> simp only []
    · split <;> rename_i heq <;> split at heq <;> cases heq
      · split <;> rfl
      · rfl
    · rfl
  rw [hdev]
  omega

/-- `fu_plugin_synaptics_mst_rescan` of fu-plugin-synaptics-mst.c (`rescan_all`). -/
def fu_plugin_synaptics_mst_rescan (hw : Hw) (st : PluginState) : PluginState :=
  rescan_loop hw 0 st

/-! ## synaptics-mst: the debounce timer -/

def FU_SYNAPTICS_MST_DRM_REPLUG_DELAY : Nat := 5

def G_USEC_PER_SEC : Nat := 1000000

/-- GLib `g_timeout_set_expiration` for a seconds-granularity source (gmain.c): the time the
source is ready. The requested time is moved to a whole-second mark offset by the
per-session `timer_perturb`: down when it is less than a quarter second past the mark, up
otherwise. `perturb_hash` is the hash GLib derives `timer_perturb` from. -/
def g_timeout_set_expiration (perturb_hash : Nat) (interval : Nat) (current_time : Nat) :
    Nat :=
  let timer_perturb := perturb_hash % 1000000
  let expiration := current_time + interval * 1000 * 1000 - timer_perturb
  let remainder := expiration % 1000000
  let expiration := if remainder ≥ 1000000 / 4 then expiration + 1000000 else expiration
  expiration - remainder + timer_perturb

/-- GLib `g_timeout_add_seconds`: attaches a timeout source for `interval` seconds and returns
its identifier, which is never 0. The callback is not stored: the plugin only ever passes
`fu_plugin_synaptics_mst_rescan_cb`. -/
def g_timeout_add_seconds (perturb_hash : Nat) (st : PluginState) (interval : Nat) :
    Nat × PluginState :=
  (st.last_source_id + 1,
   { st with
     sources := st.sources ++
       [(st.last_source_id + 1, g_timeout_set_expiration perturb_hash interval st.now)]
     last_source_id := st.last_source_id + 1 })

/-- GLib `g_source_remove`: destroys the source with this identifier. -/
def g_source_remove (st : PluginState) (id : Nat) : PluginState :=
  { st with sources := st.sources.filter (fun s => decide (s.1 ≠ id)) }

/-- `fu_plugin_synaptics_mst_rescan_cb` of fu-plugin-synaptics-mst.c; the Boolean is the
callback's return value (`FALSE`: do not call again). -/
def fu_plugin_synaptics_mst_rescan_cb (hw : Hw) (st : PluginState) : Bool × PluginState :=
  let st1 := fu_plugin_synaptics_mst_rescan hw (log st (Event.rescan_cb st.now))
  (false, { st1 with drm_changed_id := 0 })

/-- `fu_plugin_backend_device_changed` of fu-plugin-synaptics-mst.c (`notify_changed`). -/
def fu_plugin_backend_device_changed (perturb_hash : Nat) (st : PluginState) (device : Nat) :
    GResult × PluginState :=
  if !(st.dev device).is_udev_device then
    (GResult.TRUE, st)
  else if !(g_strcmp0_eq (st.dev device).subsystem "drm") then
    (GResult.TRUE, st)
  else
    let st1 := if st.drm_changed_id ≠ 0 then g_source_remove st st.drm_changed_id else st
    let r := g_timeout_add_seconds perturb_hash st1 FU_SYNAPTICS_MST_DRM_REPLUG_DELAY
    (GResult.TRUE, { r.2 with drm_changed_id := r.1 })

/-- GLib main loop, the dispatch of one timeout source: the callback runs, and the source is
destroyed when the callback returns `FALSE`. -/
def g_source_dispatch (hw : Hw) (st : PluginState) (src : Nat × Nat) : PluginState :=
  let r := fu_plugin_synaptics_mst_rescan_cb hw st
  if r.1 then r.2 else g_source_remove r.2 src.1

/-- GLib `g_main_context_iteration`, run when the clock reads `t`: every attached source that
is ready by then is dispatched, in the order the sources were attached. The loop may run at
any time at or after a source is ready; a callback sees the time of the iteration. -/
def g_main_context_iteration (hw : Hw) (t : Nat) (st : PluginState) : PluginState :=
  (st.sources.filter (fun s => decide (s.2 ≤ max st.now t))).foldl
    (fun s src => if src ∈ s.sources then g_source_dispatch hw s src else s)
    { st with now := max st.now t }

/-- The host delivers a `changed` notification for `device` when the clock reads `t`: the
main loop iterates and the handler runs. -/
def changed_at (hw : Hw) (perturb_hash : Nat) (device : Nat) (st : PluginState) (t : Nat) :
    PluginState :=
  (fu_plugin_backend_device_changed perturb_hash (g_main_context_iteration hw t st) device).2

/-- The states the plugin is in between callbacks while a burst is delivered at the times
`ts`: just before and just after each notification. -/
def burst_states (hw : Hw) (perturb_hash : Nat) (device : Nat) (st : PluginState) :
    List Nat → List PluginState
  | [] => []
  | t :: ts =>
    g_main_context_iteration hw t st :: changed_at hw perturb_hash device st t ::
      burst_states hw perturb_hash device (changed_at hw perturb_hash device st t) ts

/-- The state after the whole burst. -/
def burst (hw : Hw) (perturb_hash : Nat) (device : Nat) (st : PluginState) (ts : List Nat) :
    PluginState :=
  ts.foldl (changed_at hw perturb_hash device) st

/-- Each notification of `ts` comes at or after `prev` and less than the 5-second debounce
window after the one before it. -/
def within_window : Nat → List Nat → Bool
  | _, [] => true
  | prev, t :: ts =>
    decide (prev ≤ t) &&
    decide (t < prev + FU_SYNAPTICS_MST_DRM_REPLUG_DELAY * G_USEC_PER_SEC) &&
    within_window t ts

/-- Each notification of `ts` comes at or after `prev` and before the timer armed by the one
before it is ready. -/
def before_ready (perturb_hash : Nat) : Nat → List Nat → Bool
  | _, [] => true
  | prev, t :: ts =>
    decide (prev ≤ t) &&
    decide (t < g_timeout_set_expiration perturb_hash FU_SYNAPTICS_MST_DRM_REPLUG_DELAY prev) &&
    before_ready perturb_hash t ts

/-- The clock values at which `fu_plugin_synaptics_mst_rescan_cb` ran. -/
def rescan_cb_times : List Event → List Nat
  | [] => []
  | Event.rescan_cb t :: es => t :: rescan_cb_times es
  | _ :: es => rescan_cb_times es

/-- No timer is pending, or the one pending timer is the one `priv->drm_changed_id` names and
it is ready after `t`. -/
def timer_consistent (st : PluginState) (t : Nat) : Prop :=
  (st.drm_changed_id = 0 ∧ st.sources = []) ∨
  (st.drm_changed_id ≠ 0 ∧ ∃ due, t < due ∧ st.sources = [(st.drm_changed_id, due)])

/-! ## synaptics-mst: device added, update -/

/-- Modelled from the spec: fu_synaptics_mst_device_new (fu-synaptics-mst-device.c): a new
device object for the udev device; it has not been probed, so it is neither registered nor
locked. -/
def fu_synaptics_mst_device_new (st : PluginState) (device : Nat) : Nat × PluginState :=
  (st.next_handle,
   { set_dev st st.next_handle
       { is_udev_device := true
         subsystem := (st.dev device).subsystem
         plugin := none
         flags := []
         internal_flags := []
         open_refcount := 0 } with
     next_handle := st.next_handle + 1 })

/-- `fu_plugin_backend_device_added` of fu-plugin-synaptics-mst.c (`notify_added`).
`fu_synaptics_mst_device_set_system_type` touches none of the modelled fields. -/
def fu_plugin_backend_device_added (hw : Hw) (st : PluginState) (device : Nat) :
    GResult × PluginState :=
  if !(st.dev device).is_udev_device then
    (GResult.TRUE, st)
  else
    let r := fu_synaptics_mst_device_new st device
    match fu_device_locker_new hw r.2 r.1 with
    | (GResult.FALSE error, st2) => (GResult.FALSE error, st2)
    | (GResult.TRUE, st2) =>
      let st3 := fu_plugin_synaptics_mst_device_rescan hw st2 r.1
      (GResult.TRUE,
       fu_device_locker_release { st3 with devices := st3.devices ++ [r.1] } r.1)

/-- `fu_plugin_update` of fu-plugin-synaptics-mst.c. -/
def fu_plugin_update (hw : Hw) (st : PluginState) (device : Nat) (blob_fw : GBytes)
    (flags : FwupdInstallFlags) : GResult × PluginState :=
  match fu_device_locker_new hw st device with
  | (GResult.FALSE error, st1) => (GResult.FALSE error, st1)
  | (GResult.TRUE, st1) =>
    match fu_device_write_firmware hw st1 device blob_fw flags with
    | (GResult.FALSE error, st2) => (GResult.FALSE error, fu_device_locker_release st2 device)
    | (GResult.TRUE, st2) =>
      if !(fu_device_has_flag (st2.dev device) FwupdDeviceFlag.SKIPS_RESTART) then
        (GResult.TRUE, fu_device_locker_release (fu_plugin_device_remove st2 device) device)
      else
        (GResult.TRUE, fu_device_locker_release st2 device)

/-! ## Trace predicates -/

/-- The devices `fu_device_locker_new` was called on, in call order. -/
def lock_attempts : List Event → List Nat
  | [] => []
  | Event.lock_ok d :: es => d :: lock_attempts es
  | Event.lock_failed d :: es => d :: lock_attempts es
  | _ :: es => lock_attempts es

/-- Replays a trace from the lock counts `held`: every rescan and firmware write is on a
device on which a lock is held at that point, and only held locks are released. -/
def hardware_under_lock (held : Nat → Nat) : List Event → Bool
  | [] => true
  | Event.lock_ok d :: es => hardware_under_lock (Function.update held d (held d + 1)) es
  | Event.unlock d :: es =>
    decide (0 < held d) && hardware_under_lock (Function.update held d (held d - 1)) es
  | Event.rescan d _ :: es => decide (0 < held d) && hardware_under_lock held es
  | Event.write_firmware d _ :: es => decide (0 < held d) && hardware_under_lock held es
  | _ :: es => hardware_under_lock held es

/-- Replays a trace from the lock counts `held`: no lock acquisition, successful or not, is
attempted on a device on which a lock is held at that point. -/
def no_relock (held : Nat → Nat) : List Event → Bool
  | [] => true
  | Event.lock_ok d :: es =>
    decide (held d = 0) && no_relock (Function.update held d (held d + 1)) es
  | Event.lock_failed d :: es => decide (held d = 0) && no_relock held es
  | Event.unlock d :: es => no_relock (Function.update held d (held d - 1)) es
  | _ :: es => no_relock held es

/-- Every lock acquired in the trace is released in it, once. -/
def locks_released (es : List Event) : Prop :=
  ∀ d, es.count (Event.unlock d) = es.count (Event.lock_ok d)

/-- The Registry invariant of the data model: a device is marked registered exactly when it
is in the Registry, and every handle in the Registry or in `priv->devices` has been
allocated. -/
def registry_consistent (st : PluginState) : Prop :=
  (∀ d, fu_device_has_flag (st.dev d) FwupdDeviceFlag.REGISTERED = true ↔ d ∈ st.registry) ∧
  (∀ d ∈ st.registry, d < st.next_handle) ∧
  (∀ d ∈ st.devices, d < st.next_handle)

/-! ## Concrete environments and states -/

/-- Hardware on which every operation succeeds. -/
def hw_ok : Hw :=
  { open_result := fun _ _ => none
    rescan_result := fun _ _ => none
    write_result := fun _ _ _ _ => none }

/-- Hardware that opens but answers no rescan and takes no firmware. -/
def hw_absent : Hw :=
  { open_result := fun _ _ => none
    rescan_result := fun _ _ => some { code := 2 }
    write_result := fun _ _ _ _ => some { code := 3 } }

/-- Hardware that cannot be opened. -/
def hw_closed : Hw :=
  { open_result := fun _ _ => some { code := 4 }
    rescan_result := fun _ _ => none
    write_result := fun _ _ _ _ => none }

/-- A udev device of the given subsystem, as the backend hands it to the plugin. -/
def udev_device (subsystem : String) : FuDevice :=
  { is_udev_device := true
    subsystem := some subsystem
    plugin := none
    flags := []
    internal_flags := []
    open_refcount := 0 }

/-- The plugin after `fu_plugin_init`: no device, no timer; handle 0 is a `drm` udev device
known to the backend. -/
def st_init : PluginState :=
  { dev := fun _ => udev_device "drm"
    next_handle := 1
    registry := []
    devices := []
    drm_changed_id := 0
    now := 0
    sources := []
    last_source_id := 0
    trace := [] }

/-- A thunderbolt device that is already usable during an update but restarts after one. -/
def dev_usable : FuDevice :=
  { is_udev_device := true
    subsystem := some "thunderbolt"
    plugin := some "thunderbolt"
    flags := [FwupdDeviceFlag.UPDATABLE, FwupdDeviceFlag.USABLE_DURING_UPDATE]
    internal_flags := [FuDeviceInternalFlag.REPLUG_MATCH_GUID]
    open_refcount := 0 }

/-- A thunderbolt device as the thunderbolt plugin creates it. -/
def dev_thunderbolt : FuDevice :=
  { dev_usable with flags := [FwupdDeviceFlag.UPDATABLE] }

/-- A device of another plugin. -/
def dev_other : FuDevice :=
  { dev_usable with plugin := some "synaptics_mst", flags := [FwupdDeviceFlag.UPDATABLE] }

def cfg_delayed : Config :=
  { MinimumKernelVersion := none
    MinimumAmdGpuKernelVersion := some "5.2.0"
    DelayedActivation := true }

def cfg_plain : Config :=
  { MinimumKernelVersion := none
    MinimumAmdGpuKernelVersion := none
    DelayedActivation := false }

/-- A staged device: registered, skips the restart, not marked usable during an update. -/
def dev_staged : FuDevice :=
  { udev_device "drm_dp_aux_dev" with
    flags := [FwupdDeviceFlag.REGISTERED, FwupdDeviceFlag.SKIPS_RESTART] }

/-- A registered device that restarts after an update. -/
def dev_registered : FuDevice :=
  { udev_device "drm_dp_aux_dev" with
    flags := [FwupdDeviceFlag.UPDATABLE, FwupdDeviceFlag.REGISTERED] }

/-- A plugin with three devices in its list: 1 is `dev_staged` and 2 is `dev_registered`,
both in the Registry; 3 was seen but never registered. -/
def st_three : PluginState :=
  { st_init with
    dev := fun h =>
      if h = 1 then dev_staged
      else if h = 2 then dev_registered
      else if h = 3 then udev_device "drm_dp_aux_dev"
      else udev_device "drm"
    next_handle := 4
    registry := [1, 2]
    devices := [1, 2, 3] }

/-- The handler's own lock in `fu_plugin_backend_device_added`, on the new device. -/
def added_lock (hw : Hw) (st : PluginState) (device : Nat) : GResult × PluginState :=
  fu_device_locker_new hw (fu_synaptics_mst_device_new st device).2 st.next_handle

/-- The lock `fu_plugin_synaptics_mst_device_rescan` takes when called from
`fu_plugin_backend_device_added`, nested in the handler's. -/
def added_rescan_lock (hw : Hw) (st : PluginState) (device : Nat) : GResult × PluginState :=
  fu_device_locker_new hw (added_lock hw st device).2 st.next_handle

/-- The rescan of the new device under both locks. -/
def added_rescan (hw : Hw) (st : PluginState) (device : Nat) : GResult × PluginState :=
  fu_device_rescan hw (added_rescan_lock hw st device).2 st.next_handle

/-- The plugin after the backend added udev device 0 while nothing answered the rescan: the
new device 1 is in `priv->devices` and not in the Registry. -/
def st_seen : PluginState :=
  (fu_plugin_backend_device_added hw_absent st_init 0).2

/-- A version comparison for the examples: the order of the string lengths. -/
def vercmp_len (a b : String) : Int :=
  (a.length : Int) - (b.length : Int)

end FwupdPlugins

/-! # Theorems -/

namespace FwupdPlugins

/-! ## thunderbolt: flags set at registration -/

/-- C7, as the claim states it, fails: with DelayedActivation true, a thunderbolt device that
already carries usable-during-update but not skips-restart leaves
`fu_plugin_device_registered` without the skips-restart flag. -/
theorem device_registered_skips_restart_counterexample :
    dev_usable.plugin = some "thunderbolt" ∧ cfg_delayed.DelayedActivation = true ∧
    ¬ (fu_device_has_flag (fu_plugin_device_registered cfg_delayed dev_usable)
          FwupdDeviceFlag.USABLE_DURING_UPDATE = true ∧
       fu_device_has_flag (fu_plugin_device_registered cfg_delayed dev_usable)
          FwupdDeviceFlag.SKIPS_RESTART = true) := by
  decide

/-- C7, amended: for a thunderbolt device with DelayedActivation true that does not yet carry
usable-during-update, `fu_plugin_device_registered` sets usable-during-update and
skips-restart and keeps every flag the device had; if the device already carries
usable-during-update it is left unchanged; and when DelayedActivation is false or the device
belongs to another plugin the device is left unchanged. -/
theorem device_registered_flags (cfg : Config) (device : FuDevice) :
    (device.plugin = some "thunderbolt" → cfg.DelayedActivation = true →
      fu_device_has_flag device FwupdDeviceFlag.USABLE_DURING_UPDATE = false →
        fu_device_has_flag (fu_plugin_device_registered cfg device)
          FwupdDeviceFlag.USABLE_DURING_UPDATE = true ∧
        fu_device_has_flag (fu_plugin_device_registered cfg device)
          FwupdDeviceFlag.SKIPS_RESTART = true ∧
        ∀ f, f ∈ device.flags → f ∈ (fu_plugin_device_registered cfg device).flags) ∧
    (device.plugin = some "thunderbolt" → cfg.DelayedActivation = true →
      fu_device_has_flag device FwupdDeviceFlag.USABLE_DURING_UPDATE = true →
        fu_plugin_device_registered cfg device = device) ∧
    (cfg.DelayedActivation = false ∨ device.plugin ≠ some "thunderbolt" →
        fu_plugin_device_registered cfg device = device) := by
  refine ⟨?_, ?_, ?_⟩
  · intro hp hc hu
    have hu' : FwupdDeviceFlag.USABLE_DURING_UPDATE ∉ device.flags := by
      simpa [fu_device_has_flag] using hu
    simp only [fu_plugin_device_registered, hp, hc, hu, g_strcmp0_eq]
    simp only [fu_device_has_flag, fu_device_remove_internal_flag, fu_device_add_flag, hu']
    by_cases hs : FwupdDeviceFlag.SKIPS_RESTART ∈ device.flags <;> simp [hs] <;>
      exact fun f hf => Or.inl hf
  · intro hp hc hu
    simp [fu_plugin_device_registered, hp, hc, hu, g_strcmp0_eq]
  · intro h
    rcases h with hc | hp
    · simp [fu_plugin_device_registered, hc]
    · have : g_strcmp0_eq device.plugin "thunderbolt" = false := by
        cases hpl : device.plugin with
        | none => rfl
        | some s =>
          have : s ≠ "thunderbolt" := fun h => hp (by rw [hpl, h])
          simp [g_strcmp0_eq, this]
      simp [fu_plugin_device_registered, this]

/-- The three cases of `device_registered_flags` at concrete devices. -/
theorem device_registered_flags_witness :
    (fu_device_has_flag (fu_plugin_device_registered cfg_delayed dev_thunderbolt)
        FwupdDeviceFlag.USABLE_DURING_UPDATE = true ∧
      fu_device_has_flag (fu_plugin_device_registered cfg_delayed dev_thunderbolt)
        FwupdDeviceFlag.SKIPS_RESTART = true ∧
      ∀ f, f ∈ dev_thunderbolt.flags →
        f ∈ (fu_plugin_device_registered cfg_delayed dev_thunderbolt).flags) ∧
    fu_plugin_device_registered cfg_delayed dev_usable = dev_usable ∧
    fu_plugin_device_registered cfg_plain dev_thunderbolt = dev_thunderbolt ∧
    fu_plugin_device_registered cfg_delayed dev_other = dev_other :=
  ⟨(device_registered_flags cfg_delayed dev_thunderbolt).1 (by decide) (by decide) (by decide),
   (device_registered_flags cfg_delayed dev_usable).2.1 (by decide) (by decide) (by decide),
   (device_registered_flags cfg_plain dev_thunderbolt).2.2 (Or.inl (by decide)),
   (device_registered_flags cfg_delayed dev_other).2.2 (Or.inr (by decide))⟩

/-! ## synaptics-mst: the kernel safety gate -/

theorem check_amdgpu_lines_eq (vercmp : String → String → Int) (running : String)
    (minimum_kernel : String) (lines : List (List Char)) :
    check_amdgpu_lines vercmp running minimum_kernel lines =
      if lines.any (fun line => ( g_str_has_prefix line "amdgpu ")) then
        fu_common_check_kernel_version vercmp running minimum_kernel
      else GResult.TRUE := by
  induction lines with
  | nil => simp [check_amdgpu_lines]
  | cons line rest ih =>
    by_cases h : ( g_str_has_prefix line "amdgpu ") = true
    · simp [check_amdgpu_lines, h]
    · simp [check_amdgpu_lines, h, ih]

/-- C6: with /proc/modules readable, `fu_synaptics_mst_check_amdgpu_safe` (and so
`fu_plugin_startup`) fails exactly when MinimumAmdGpuKernelVersion is configured, a line of
/proc/modules names the amdgpu module, and the running kernel version compares lower than the
configured minimum; in every other case it succeeds, so it succeeds whenever the module is
absent and whenever the running version is at least the minimum. -/
theorem check_amdgpu_safe_error_iff (vercmp : String → String → Int) (running : String)
    (cfg : Config) (buf : List Char) :
    ((∃ error, fu_plugin_startup vercmp running cfg (ProcModules.contents buf) =
        GResult.FALSE error) ↔
      ∃ minimum_kernel, cfg.MinimumAmdGpuKernelVersion = some minimum_kernel ∧
        amdgpu_loaded buf = true ∧ vercmp running minimum_kernel < 0) ∧
    (fu_plugin_startup vercmp running cfg (ProcModules.contents buf) = GResult.TRUE ↔
      ¬ ∃ minimum_kernel, cfg.MinimumAmdGpuKernelVersion = some minimum_kernel ∧
        amdgpu_loaded buf = true ∧ vercmp running minimum_kernel < 0) ∧
    fu_plugin_startup vercmp running cfg ProcModules.missing = GResult.TRUE ∧
    (amdgpu_loaded buf = false →
      fu_plugin_startup vercmp running cfg (ProcModules.contents buf) = GResult.TRUE) ∧
    (∀ minimum_kernel, cfg.MinimumAmdGpuKernelVersion = some minimum_kernel →
      0 ≤ vercmp running minimum_kernel →
      fu_plugin_startup vercmp running cfg (ProcModules.contents buf) = GResult.TRUE) := by
  unfold fu_plugin_startup fu_synaptics_mst_check_amdgpu_safe
  cases hm : cfg.MinimumAmdGpuKernelVersion with
  | none => simp
  | some m =>
    simp only [check_amdgpu_lines_eq, fu_common_check_kernel_version, amdgpu_loaded, true_and]
    by_cases hl : (g_strsplit_lines buf).any (fun line => ( g_str_has_prefix line "amdgpu "))
        = true
    · by_cases hv : vercmp running m < 0
      · simp [hl, hv]
      · simp [hl, hv]
    · simp [hl]

/-- The gate at concrete inputs: amdgpu loaded and the kernel too old, then the two
passing cases. -/
theorem check_amdgpu_safe_error_iff_witness :
    (∃ error, fu_plugin_startup vercmp_len "4.9" cfg_delayed
      (ProcModules.contents "snd 1 0\namdgpu 9 1\n".data) = GResult.FALSE error) ∧
    fu_plugin_startup vercmp_len "5.10.0" cfg_delayed
      (ProcModules.contents "snd 1 0\n".data) = GResult.TRUE ∧
    fu_plugin_startup vercmp_len "5.10.0" cfg_delayed
      (ProcModules.contents "snd 1 0\namdgpu 9 1\n".data) = GResult.TRUE :=
  ⟨(check_amdgpu_safe_error_iff vercmp_len "4.9" cfg_delayed
      "snd 1 0\namdgpu 9 1\n".data).1.mpr ⟨"5.2.0", by decide, by decide, by decide⟩,
   (check_amdgpu_safe_error_iff vercmp_len "5.10.0" cfg_delayed "snd 1 0\n".data).2.2.2.1
      (by decide),
   (check_amdgpu_safe_error_iff vercmp_len "5.10.0" cfg_delayed
      "snd 1 0\namdgpu 9 1\n".data).2.2.2.2 "5.2.0" (by decide) (by decide)⟩

/-! ## synaptics-mst: update -/

/-- C1: for a device without the skips-restart flag, when the lock is acquired and the
firmware write succeeds, `fu_plugin_update` returns success, `fu_plugin_device_remove` was
applied to the device (after the write, before the lock is released) and the device is not in
the Registry when the call returns. -/
theorem fu_plugin_update_removes (hw : Hw) (st : PluginState) (device : Nat)
    (blob_fw : GBytes) (flags : FwupdInstallFlags)
    (hskip : fu_device_has_flag (st.dev device) FwupdDeviceFlag.SKIPS_RESTART = false)
    (hlock : (fu_device_locker_new hw st device).1 = GResult.TRUE)
    (hwrite : (fu_device_write_firmware hw (fu_device_locker_new hw st device).2 device
      blob_fw flags).1 = GResult.TRUE) :
    (fu_plugin_update hw st device blob_fw flags).1 = GResult.TRUE ∧
    device ∉ (fu_plugin_update hw st device blob_fw flags).2.registry ∧
    (fu_plugin_update hw st device blob_fw flags).2.registry =
      st.registry.filter (fun d => decide (d ≠ device)) ∧
    (fu_plugin_update hw st device blob_fw flags).2.trace =
      st.trace ++ [Event.lock_ok device, Event.write_firmware device true,
        Event.device_remove device, Event.unlock device] := by
  unfold fu_plugin_update
  unfold fu_device_locker_new at hlock hwrite ⊢
  cases ho : hw.open_result st device with
  | some e => simp [ho] at hlock
  | none =>
    simp only [ho] at hwrite ⊢
    unfold fu_device_write_firmware at hwrite ⊢
    split at hwrite
    · simp at hwrite
    · rename_i hw2
      simp only [hw2]
      simp [log, set_dev, fu_device_has_flag, fu_device_locker_release,
        fu_plugin_device_remove] at hskip ⊢
      simp [hskip, List.mem_filter]

/-- The update of the restarting device 2 of `st_three` on working hardware. -/
theorem fu_plugin_update_removes_witness :
    (fu_plugin_update hw_ok st_three 2 [104, 101, 108, 108, 111] 0).1 = GResult.TRUE ∧
    2 ∉ (fu_plugin_update hw_ok st_three 2 [104, 101, 108, 108, 111] 0).2.registry ∧
    (fu_plugin_update hw_ok st_three 2 [104, 101, 108, 108, 111] 0).2.registry =
      st_three.registry.filter (fun d => decide (d ≠ 2)) ∧
    (fu_plugin_update hw_ok st_three 2 [104, 101, 108, 108, 111] 0).2.trace =
      st_three.trace ++ [Event.lock_ok 2, Event.write_firmware 2 true,
        Event.device_remove 2, Event.unlock 2] :=
  fu_plugin_update_removes hw_ok st_three 2 [104, 101, 108, 108, 111] 0
    (by decide) (by decide) (by decide)

/-- C2, as the claim states it, fails: the registered device 1 of `st_three` has
skips-restart but not usable-during-update; after an update whose lock and write succeed it
is still registered, and still not flagged usable-during-update. -/
theorem fu_plugin_update_usable_counterexample :
    fu_device_has_flag (st_three.dev 1) FwupdDeviceFlag.SKIPS_RESTART = true ∧
    1 ∈ st_three.registry ∧
    (fu_device_locker_new hw_ok st_three 1).1 = GResult.TRUE ∧
    (fu_device_write_firmware hw_ok (fu_device_locker_new hw_ok st_three 1).2 1 [] 0).1 =
      GResult.TRUE ∧
    ¬ ((fu_plugin_update hw_ok st_three 1 [] 0).1 = GResult.TRUE ∧
       1 ∈ (fu_plugin_update hw_ok st_three 1 [] 0).2.registry ∧
       fu_device_has_flag ((fu_plugin_update hw_ok st_three 1 [] 0).2.dev 1)
         FwupdDeviceFlag.USABLE_DURING_UPDATE = true) := by
  decide

/-- C2, amended: for a device with the skips-restart flag, when the lock is acquired and the
firmware write succeeds, `fu_plugin_update` returns success, `fu_plugin_device_remove` is not
called and the Registry is unchanged (a registered device is still registered), and every
device object is as it was before the call: the device is flagged usable-during-update after
the call exactly when it was before. -/
theorem fu_plugin_update_retains (hw : Hw) (st : PluginState) (device : Nat)
    (blob_fw : GBytes) (flags : FwupdInstallFlags)
    (hskip : fu_device_has_flag (st.dev device) FwupdDeviceFlag.SKIPS_RESTART = true)
    (hlock : (fu_device_locker_new hw st device).1 = GResult.TRUE)
    (hwrite : (fu_device_write_firmware hw (fu_device_locker_new hw st device).2 device
      blob_fw flags).1 = GResult.TRUE) :
    (fu_plugin_update hw st device blob_fw flags).1 = GResult.TRUE ∧
    (fu_plugin_update hw st device blob_fw flags).2.registry = st.registry ∧
    (∀ d, (fu_plugin_update hw st device blob_fw flags).2.dev d = st.dev d) ∧
    fu_device_has_flag ((fu_plugin_update hw st device blob_fw flags).2.dev device)
        FwupdDeviceFlag.USABLE_DURING_UPDATE =
      fu_device_has_flag (st.dev device) FwupdDeviceFlag.USABLE_DURING_UPDATE ∧
    (fu_plugin_update hw st device blob_fw flags).2.trace =
      st.trace ++ [Event.lock_ok device, Event.write_firmware device true,
        Event.unlock device] := by
  unfold fu_plugin_update
  unfold fu_device_locker_new at hlock hwrite ⊢
  cases ho : hw.open_result st device with
  | some e => simp [ho] at hlock
  | none =>
    simp only [ho] at hwrite ⊢
    unfold fu_device_write_firmware at hwrite ⊢
    split at hwrite
    · simp at hwrite
    · rename_i hw2
      simp only [hw2]
      simp [log, set_dev, fu_device_has_flag, fu_device_locker_release] at hskip ⊢
      simp [hskip]

/-- The update of the staged device 1 of `st_three` on working hardware. -/
theorem fu_plugin_update_retains_witness :
    (fu_plugin_update hw_ok st_three 1 [] 0).1 = GResult.TRUE ∧
    (fu_plugin_update hw_ok st_three 1 [] 0).2.registry = st_three.registry ∧
    (∀ d, (fu_plugin_update hw_ok st_three 1 [] 0).2.dev d = st_three.dev d) ∧
    fu_device_has_flag ((fu_plugin_update hw_ok st_three 1 [] 0).2.dev 1)
        FwupdDeviceFlag.USABLE_DURING_UPDATE =
      fu_device_has_flag (st_three.dev 1) FwupdDeviceFlag.USABLE_DURING_UPDATE ∧
    (fu_plugin_update hw_ok st_three 1 [] 0).2.trace =
      st_three.trace ++ [Event.lock_ok 1, Event.write_firmware 1 true, Event.unlock 1] :=
  fu_plugin_update_retains hw_ok st_three 1 [] 0 (by decide) (by decide) (by decide)

/-- C3: `fu_plugin_update` returns failure exactly when the lock cannot be acquired or, the
lock being held, the firmware write fails, and the error it returns is the error of that
operation. When the lock fails only the lock was attempted (no write) and nothing but the
trace changes; when the write fails the lock is released, and the Registry and every device
object (flags included) are as before the call, whatever the skips-restart flag. -/
theorem fu_plugin_update_failure (hw : Hw) (st : PluginState) (device : Nat)
    (blob_fw : GBytes) (flags : FwupdInstallFlags) :
    (∀ error, (fu_plugin_update hw st device blob_fw flags).1 = GResult.FALSE error ↔
      ((fu_device_locker_new hw st device).1 = GResult.FALSE error ∨
       ((fu_device_locker_new hw st device).1 = GResult.TRUE ∧
        (fu_device_write_firmware hw (fu_device_locker_new hw st device).2 device
          blob_fw flags).1 = GResult.FALSE error))) ∧
    (∀ error, (fu_device_locker_new hw st device).1 = GResult.FALSE error →
      (fu_plugin_update hw st device blob_fw flags).2.trace =
        st.trace ++ [Event.lock_failed device] ∧
      (fu_plugin_update hw st device blob_fw flags).2.registry = st.registry ∧
      (fu_plugin_update hw st device blob_fw flags).2.dev = st.dev) ∧
    (∀ error, (fu_device_locker_new hw st device).1 = GResult.TRUE →
      (fu_device_write_firmware hw (fu_device_locker_new hw st device).2 device
        blob_fw flags).1 = GResult.FALSE error →
      (fu_plugin_update hw st device blob_fw flags).2.trace =
        st.trace ++ [Event.lock_ok device, Event.write_firmware device false,
          Event.unlock device] ∧
      (fu_plugin_update hw st device blob_fw flags).2.registry = st.registry ∧
      (fu_plugin_update hw st device blob_fw flags).2.dev = st.dev) := by
  unfold fu_plugin_update fu_device_locker_new
  cases ho : hw.open_result st device with
  | some e => simp [log]
  | none =>
    simp only []
    unfold fu_device_write_firmware
    cases hw2 : hw.write_result (log (set_dev st device
        { st.dev device with open_refcount := (st.dev device).open_refcount + 1 })
        (Event.lock_ok device)) device blob_fw flags with
    | some e2 => simp [log, set_dev, fu_device_locker_release]
    | none =>
      simp only []
      split <;> simp

/-- A failing lock and a failing write on device 2 of `st_three`. -/
theorem fu_plugin_update_failure_witness :
    ((fu_plugin_update hw_closed st_three 2 [] 0).1 = GResult.FALSE { code := 4 } ∧
      (fu_plugin_update hw_closed st_three 2 [] 0).2.trace =
        st_three.trace ++ [Event.lock_failed 2] ∧
      (fu_plugin_update hw_closed st_three 2 [] 0).2.registry = st_three.registry ∧
      (fu_plugin_update hw_closed st_three 2 [] 0).2.dev = st_three.dev) ∧
    ((fu_plugin_update hw_absent st_three 2 [] 0).1 = GResult.FALSE { code := 3 } ∧
      (fu_plugin_update hw_absent st_three 2 [] 0).2.trace =
        st_three.trace ++ [Event.lock_ok 2, Event.write_firmware 2 false, Event.unlock 2] ∧
      (fu_plugin_update hw_absent st_three 2 [] 0).2.registry = st_three.registry ∧
      (fu_plugin_update hw_absent st_three 2 [] 0).2.dev = st_three.dev) :=
  ⟨⟨((fu_plugin_update_failure hw_closed st_three 2 [] 0).1 { code := 4 }).mpr
      (Or.inl (by decide)),
    (fu_plugin_update_failure hw_closed st_three 2 [] 0).2.1 { code := 4 } (by decide)⟩,
   ⟨((fu_plugin_update_failure hw_absent st_three 2 [] 0).1 { code := 3 }).mpr
      (Or.inr ⟨by decide, by decide⟩),
    (fu_plugin_update_failure hw_absent st_three 2 [] 0).2.2 { code := 3 } (by decide)
      (by decide)⟩⟩

/-! ## synaptics-mst: rescan of one device -/

/-- C4: when the lock is acquired and the hardware rescan fails, for a device that is marked
registered exactly when it is in the Registry, `fu_plugin_synaptics_mst_device_rescan` calls
`fu_plugin_device_remove` if and only if the device was in the Registry; afterwards the
device is not in the Registry, no device was added, and every other entry is kept in place.
The function returns `void`: the failure reaches the caller neither as a value nor as an
error. The agreement of the flag with membership is `registry_consistent`, which holds after
`fu_plugin_init` and is kept by every entry point (`consistent_init`, `consistent_added`,
`consistent_rescan_all`, `consistent_update`). -/
theorem device_rescan_failure (hw : Hw) (st : PluginState) (device : Nat) (error : GError)
    (hlock : (fu_device_locker_new hw st device).1 = GResult.TRUE)
    (hrescan : (fu_device_rescan hw (fu_device_locker_new hw st device).2 device).1 =
      GResult.FALSE error)
    (hreg : fu_device_has_flag (st.dev device) FwupdDeviceFlag.REGISTERED = true ↔
      device ∈ st.registry) :
    (fu_plugin_synaptics_mst_device_rescan hw st device).trace =
      st.trace ++ [Event.lock_ok device, Event.rescan device false] ++
        (if device ∈ st.registry then [Event.device_remove device] else []) ++
        [Event.unlock device] ∧
    (Event.device_remove device ∈
        (fu_plugin_synaptics_mst_device_rescan hw st device).trace.drop st.trace.length ↔
      device ∈ st.registry) ∧
    device ∉ (fu_plugin_synaptics_mst_device_rescan hw st device).registry ∧
    (fu_plugin_synaptics_mst_device_rescan hw st device).registry =
      st.registry.filter (fun d => decide (d ≠ device)) ∧
    (∀ d, d ≠ device →
      (d ∈ (fu_plugin_synaptics_mst_device_rescan hw st device).registry ↔
        d ∈ st.registry)) := by
  unfold fu_plugin_synaptics_mst_device_rescan
  unfold fu_device_locker_new at hlock hrescan ⊢
  cases ho : hw.open_result st device with
  | some e => simp [ho] at hlock
  | none =>
    simp only [ho] at hrescan ⊢
    unfold fu_device_rescan at hrescan ⊢
    split at hrescan
    · rename_i e2 hr
      simp only [hr]
      by_cases hmem : device ∈ st.registry
      · have hflag := hreg.mpr hmem
        simp [log, set_dev, fu_device_has_flag, fu_device_locker_release,
          fu_plugin_device_remove] at hflag ⊢
        simp [hflag, hmem, List.mem_filter]
        intro d hd _
        exact hd
      · have hflag : ¬ fu_device_has_flag (st.dev device) FwupdDeviceFlag.REGISTERED = true :=
          fun h => hmem (hreg.mp h)
        simp [log, set_dev, fu_device_has_flag, fu_device_locker_release,
          fu_plugin_device_remove] at hflag ⊢
        simp [hflag, hmem]
        symm
        rw [List.filter_eq_self]
        intro d hd
        simp
        rintro rfl
        exact hmem hd
    · simp at hrescan

/-- A failed rescan of the registered device 2 and of the unregistered device 3 of
`st_three`. -/
theorem device_rescan_failure_witness :
    (fu_plugin_synaptics_mst_device_rescan hw_absent st_three 2).trace =
      st_three.trace ++ [Event.lock_ok 2, Event.rescan 2 false] ++
        (if 2 ∈ st_three.registry then [Event.device_remove 2] else []) ++
        [Event.unlock 2] ∧
    (fu_plugin_synaptics_mst_device_rescan hw_absent st_three 3).registry =
      st_three.registry.filter (fun d => decide (d ≠ 3)) :=
  ⟨(device_rescan_failure hw_absent st_three 2 { code := 2 } (by decide) (by decide)
      (by decide)).1,
   (device_rescan_failure hw_absent st_three 3 { code := 2 } (by decide) (by decide)
      (by decide)).2.2.2.1⟩

/-! ## synaptics-mst: rescan of every device -/

theorem lock_attempts_append (a b : List Event) :
    lock_attempts (a ++ b) = lock_attempts a ++ lock_attempts b := by
  induction a with
  | nil => rfl
  | cons e es ih => cases e <;> simp [lock_attempts, ih]

/-- The callback times of two traces in sequence. -/
theorem rescan_cb_times_append (a b : List Event) :
    rescan_cb_times (a ++ b) = rescan_cb_times a ++ rescan_cb_times b := by
  induction a with
  | nil => rfl
  | cons e es ih => cases e <;> simp [rescan_cb_times, ih]

/-- What one `fu_plugin_synaptics_mst_device_rescan` leaves alone, and the shape of the calls
it makes, whatever the hardware answers. -/
theorem device_rescan_frame (hw : Hw) (st : PluginState) (device : Nat) :
    (fu_plugin_synaptics_mst_device_rescan hw st device).devices = st.devices ∧
    (fu_plugin_synaptics_mst_device_rescan hw st device).drm_changed_id = st.drm_changed_id ∧
    (fu_plugin_synaptics_mst_device_rescan hw st device).now = st.now ∧
    (fu_plugin_synaptics_mst_device_rescan hw st device).sources = st.sources ∧
    (fu_plugin_synaptics_mst_device_rescan hw st device).last_source_id = st.last_source_id ∧
    (fu_plugin_synaptics_mst_device_rescan hw st device).next_handle = st.next_handle ∧
    (∀ d, ((fu_plugin_synaptics_mst_device_rescan hw st device).dev d).open_refcount =
        (st.dev d).open_refcount ∧
      ((fu_plugin_synaptics_mst_device_rescan hw st device).dev d).is_udev_device =
        (st.dev d).is_udev_device ∧
      ((fu_plugin_synaptics_mst_device_rescan hw st device).dev d).subsystem =
        (st.dev d).subsystem) ∧
    ∃ evs, (fu_plugin_synaptics_mst_device_rescan hw st device).trace = st.trace ++ evs ∧
      lock_attempts evs = [device] ∧ rescan_cb_times evs = [] ∧
      (∀ held rest, hardware_under_lock held (evs ++ rest) = hardware_under_lock held rest) ∧
      locks_released evs ∧
      ((st.dev device).open_refcount = 0 →
        no_relock (fun d => (st.dev d).open_refcount) evs = true) := by
  unfold fu_plugin_synaptics_mst_device_rescan fu_device_locker_new
  cases ho : hw.open_result st device with
  | some e =>
    refine ⟨rfl, rfl, rfl, rfl, rfl, rfl, fun d => ⟨rfl, rfl, rfl⟩,
      [Event.lock_failed device], rfl, rfl, rfl, fun _ _ => rfl, ?_, ?_⟩
    · intro d; simp
    · intro h; simp [no_relock, h]
  | none =>
    simp only []
    unfold fu_device_rescan
    cases hr : hw.rescan_result (log (set_dev st device
        { st.dev device with open_refcount := (st.dev device).open_refcount + 1 })
        (Event.lock_ok device)) device with
    | some e2 =>
      simp only []
      split
      · refine ⟨rfl, rfl, rfl, rfl, rfl, rfl, ?_,
          [Event.lock_ok device, Event.rescan device false, Event.device_remove device,
            Event.unlock device], ?_, rfl, rfl, ?_, ?_, ?_⟩
        · intro d
          by_cases hd : d = device
          · subst hd
            simp [log, set_dev, fu_device_locker_release, fu_plugin_device_remove,
              fu_device_remove_flag]
          · simp [log, set_dev, fu_device_locker_release, fu_plugin_device_remove,
              fu_device_remove_flag, Function.update_noteq hd]
        · simp [log, set_dev, fu_device_locker_release, fu_plugin_device_remove]
        · intro held rest; simp [hardware_under_lock]
        · intro d; by_cases hd : d = device <;> simp [hd]
        · intro h; simp [no_relock, h]
      · refine ⟨rfl, rfl, rfl, rfl, rfl, rfl, ?_,
          [Event.lock_ok device, Event.rescan device false, Event.unlock device],
          ?_, rfl, rfl, ?_, ?_, ?_⟩
        · intro d
          by_cases hd : d = device
          · subst hd
            simp [log, set_dev, fu_device_locker_release]
          · simp [log, set_dev, fu_device_locker_release, Function.update_noteq hd]
        · simp [log, set_dev, fu_device_locker_release]
        · intro held rest; simp [hardware_under_lock]
        · intro d; by_cases hd : d = device <;> simp [hd]
        · intro h; simp [no_relock, h]
    | none =>
      refine ⟨rfl, rfl, rfl, rfl, rfl, rfl, ?_,
        [Event.lock_ok device, Event.rescan device true, Event.device_add device,
          Event.unlock device], ?_, rfl, rfl, ?_, ?_, ?_⟩
      · intro d
        by_cases hd : d = device
        · subst hd
          simp only [log, set_dev, fu_device_locker_release, fu_plugin_device_add,
            fu_device_add_flag, Function.update_same]
          split <;> simp
        · simp [log, set_dev, fu_device_locker_release, fu_plugin_device_add,
            fu_device_add_flag, Function.update_noteq hd]
      · simp [log, set_dev, fu_device_locker_release, fu_plugin_device_add]
      · intro held rest; simp [hardware_under_lock]
      · intro d; by_cases hd : d = device <;> simp [hd]
      · intro h; simp [no_relock, h]


/-- The index loop from `i` rescans the entries of `priv->devices` from `i` on, in order: it
never stops early, because no rescan changes the list. -/
theorem rescan_loop_eq_foldl (hw : Hw) :
    ∀ (n i : Nat) (st : PluginState), st.devices.length - i = n →
      rescan_loop hw i st =
        (st.devices.drop i).foldl (fu_plugin_synaptics_mst_device_rescan hw) st := by
  intro n
  induction n with
  | zero =>
    intro i st h
    rw [rescan_loop]
    have hle : st.devices.length ≤ i := by omega
    simp [Nat.not_lt.mpr hle, List.drop_eq_nil_of_le hle]
  | succ n ih =>
    intro i st h
    rw [rescan_loop]
    have hlt : i < st.devices.length := by omega
    have hdev := (device_rescan_frame hw st (st.devices.get ⟨i, hlt⟩)).1
    simp only [hlt, dite_true]
    rw [ih (i + 1) _ (by rw [hdev]; omega), hdev]
    conv_rhs => rw [List.drop_eq_getElem_cons hlt]
    rfl

/-- `fu_plugin_synaptics_mst_rescan` is the left fold of the device rescan over
`priv->devices`. -/
theorem rescan_eq_foldl (hw : Hw) (st : PluginState) :
    fu_plugin_synaptics_mst_rescan hw st =
      st.devices.foldl (fu_plugin_synaptics_mst_device_rescan hw) st := by
  unfold fu_plugin_synaptics_mst_rescan
  rw [rescan_loop_eq_foldl hw _ 0 st rfl]
  rfl

/-- What a sequence of device rescans leaves alone, and the locks it attempts. -/
theorem foldl_rescan_frame (hw : Hw) (ds : List Nat) :
    ∀ st : PluginState,
      (ds.foldl (fu_plugin_synaptics_mst_device_rescan hw) st).devices = st.devices ∧
      (ds.foldl (fu_plugin_synaptics_mst_device_rescan hw) st).drm_changed_id =
        st.drm_changed_id ∧
      (ds.foldl (fu_plugin_synaptics_mst_device_rescan hw) st).now = st.now ∧
      (ds.foldl (fu_plugin_synaptics_mst_device_rescan hw) st).sources = st.sources ∧
      (ds.foldl (fu_plugin_synaptics_mst_device_rescan hw) st).last_source_id =
        st.last_source_id ∧
      (∀ d, ((ds.foldl (fu_plugin_synaptics_mst_device_rescan hw) st).dev d).is_udev_device =
          (st.dev d).is_udev_device ∧
        ((ds.foldl (fu_plugin_synaptics_mst_device_rescan hw) st).dev d).subsystem =
          (st.dev d).subsystem) ∧
      ∃ evs, (ds.foldl (fu_plugin_synaptics_mst_device_rescan hw) st).trace = st.trace ++ evs ∧
        lock_attempts evs = ds ∧ rescan_cb_times evs = [] := by
  induction ds with
  | nil =>
    intro st
    exact ⟨rfl, rfl, rfl, rfl, rfl, fun _ => ⟨rfl, rfl⟩, [], by simp, rfl, rfl⟩
  | cons d ds ih =>
    intro st
    obtain ⟨h1, h2, h3, h4, h5, _, h7, evs1, ht1, hl1, hc1, _⟩ := device_rescan_frame hw st d
    obtain ⟨g1, g2, g3, g4, g5, g6, evs2, ht2, hl2, hc2⟩ :=
      ih (fu_plugin_synaptics_mst_device_rescan hw st d)
    simp only [List.foldl_cons]
    refine ⟨g1.trans h1, g2.trans h2, g3.trans h3, g4.trans h4, g5.trans h5, ?_,
      evs1 ++ evs2, ?_, ?_, ?_⟩
    · intro x
      exact ⟨(g6 x).1.trans (h7 x).2.1, (g6 x).2.trans (h7 x).2.2⟩
    · rw [ht2, ht1, List.append_assoc]
    · rw [lock_attempts_append, hl1, hl2]; rfl
    · rw [rescan_cb_times_append, hc1, hc2]; rfl

/-- C9, as the claim states it, fails: in `st_seen` no device is registered, yet
`fu_plugin_synaptics_mst_rescan` rescans device 1, which is in `priv->devices` only. -/
theorem rescan_unregistered_counterexample :
    st_seen.registry = [] ∧
    ¬ (lock_attempts ((fu_plugin_synaptics_mst_rescan hw_absent st_seen).trace.drop
        st_seen.trace.length) = st_seen.registry) := by
  rw [rescan_eq_foldl]
  decide

/-- C9, amended: `fu_plugin_synaptics_mst_rescan` calls
`fu_plugin_synaptics_mst_device_rescan` exactly once for every entry of the plugin's own
list `priv->devices` (every device `fu_plugin_backend_device_added` got its lock on,
registered or not) and for no other device, in list order; each call starts from the state
the previous one left, whatever the hardware answered before, so a failing lock or rescan
does not end the pass; and `priv->devices` is the same after the pass. -/
theorem rescan_all_devices (hw : Hw) (st : PluginState) :
    fu_plugin_synaptics_mst_rescan hw st =
      st.devices.foldl (fu_plugin_synaptics_mst_device_rescan hw) st ∧
    (fu_plugin_synaptics_mst_rescan hw st).devices = st.devices ∧
    ∃ evs, (fu_plugin_synaptics_mst_rescan hw st).trace = st.trace ++ evs ∧
      lock_attempts evs = st.devices := by
  rw [rescan_eq_foldl]
  obtain ⟨h1, _, _, _, _, _, evs, ht, hl, _⟩ := foldl_rescan_frame hw st.devices st
  exact ⟨rfl, h1, evs, ht, hl⟩

/-! ## The Scoped Locker discipline -/

/-- C10, as the claim states it, fails: `fu_plugin_backend_device_added` locks the new device
and, with that lock held, `fu_plugin_synaptics_mst_device_rescan` locks it a second time. -/
theorem device_added_relock_counterexample :
    (fu_plugin_backend_device_added hw_ok st_init 0).2.trace =
      [Event.lock_ok 1, Event.lock_ok 1, Event.rescan 1 true, Event.device_add 1,
        Event.unlock 1, Event.unlock 1] ∧
    ¬ (no_relock (fun d => (st_init.dev d).open_refcount)
        (fu_plugin_backend_device_added hw_ok st_init 0).2.trace = true) := by
  decide

/-- C10, amended: in every run of `fu_plugin_synaptics_mst_device_rescan`,
`fu_plugin_update` and `fu_plugin_backend_device_added`, whatever the hardware answers, a
rescan or firmware write is invoked only on a device on which a lock acquired in that run is
held, only held locks are released, every lock acquired is released exactly once, and each
device has the lock count it had at entry when the call returns (a new device is left
unlocked). `fu_plugin_synaptics_mst_device_rescan` and `fu_plugin_update`, entered with the
device unlocked, attempt no lock on a locked device; `fu_plugin_backend_device_added` is not
covered by that clause, since it holds its own lock across the nested rescan. -/
theorem lock_discipline (hw : Hw) (st : PluginState) (device : Nat) (blob_fw : GBytes)
    (flags : FwupdInstallFlags) :
    (∃ evs, (fu_plugin_synaptics_mst_device_rescan hw st device).trace = st.trace ++ evs ∧
      hardware_under_lock (fun _ => 0) evs = true ∧ locks_released evs ∧
      (∀ d, ((fu_plugin_synaptics_mst_device_rescan hw st device).dev d).open_refcount =
        (st.dev d).open_refcount) ∧
      ((st.dev device).open_refcount = 0 →
        no_relock (fun d => (st.dev d).open_refcount) evs = true)) ∧
    (∃ evs, (fu_plugin_update hw st device blob_fw flags).2.trace = st.trace ++ evs ∧
      hardware_under_lock (fun _ => 0) evs = true ∧ locks_released evs ∧
      (∀ d, ((fu_plugin_update hw st device blob_fw flags).2.dev d).open_refcount =
        (st.dev d).open_refcount) ∧
      ((st.dev device).open_refcount = 0 →
        no_relock (fun d => (st.dev d).open_refcount) evs = true)) ∧
    (∃ evs, (fu_plugin_backend_device_added hw st device).2.trace = st.trace ++ evs ∧
      hardware_under_lock (fun _ => 0) evs = true ∧ locks_released evs ∧
      (∀ d, d ≠ st.next_handle →
        ((fu_plugin_backend_device_added hw st device).2.dev d).open_refcount =
          (st.dev d).open_refcount) ∧
      ((st.dev device).is_udev_device = true →
        ((fu_plugin_backend_device_added hw st device).2.dev st.next_handle).open_refcount
          = 0)) := by
  refine ⟨?_, ?_, ?_⟩
  · obtain ⟨_, _, _, _, _, _, h7, evs, ht, _, _, hh, hr, hn⟩ := device_rescan_frame hw st device
    exact ⟨evs, ht, by simpa [hardware_under_lock] using hh (fun _ => 0) [], hr,
      fun d => (h7 d).1, hn⟩
  · unfold fu_plugin_update fu_device_locker_new
    cases ho : hw.open_result st device with
    | some e =>
      refine ⟨[Event.lock_failed device], rfl, rfl, ?_, fun d => rfl, ?_⟩
      · intro d; simp
      · intro h; simp [no_relock, h]
    | none =>
      simp only []
      unfold fu_device_write_firmware
      cases hw2 : hw.write_result (log (set_dev st device
          { st.dev device with open_refcount := (st.dev device).open_refcount + 1 })
          (Event.lock_ok device)) device blob_fw flags with
      | some e2 =>
        refine ⟨[Event.lock_ok device, Event.write_firmware device false,
          Event.unlock device], ?_, ?_, ?_, ?_, ?_⟩
        · simp [log, set_dev, fu_device_locker_release]
        · simp [hardware_under_lock]
        · intro d; by_cases hd : d = device <;> simp [hd]
        · intro d
          by_cases hd : d = device
          · subst hd; simp [log, set_dev, fu_device_locker_release]
          · simp [log, set_dev, fu_device_locker_release, Function.update_noteq hd]
        · intro h; simp [no_relock, h]
      | none =>
        simp only []
        split
        · refine ⟨[Event.lock_ok device, Event.write_firmware device true,
            Event.device_remove device, Event.unlock device], ?_, ?_, ?_, ?_, ?_⟩
          · simp [log, set_dev, fu_device_locker_release, fu_plugin_device_remove]
          · simp [hardware_under_lock]
          · intro d; by_cases hd : d = device <;> simp [hd]
          · intro d
            by_cases hd : d = device
            · subst hd
              simp [log, set_dev, fu_device_locker_release, fu_plugin_device_remove,
                fu_device_remove_flag]
            · simp [log, set_dev, fu_device_locker_release, fu_plugin_device_remove,
                fu_device_remove_flag, Function.update_noteq hd]
          · intro h; simp [no_relock, h]
        · refine ⟨[Event.lock_ok device, Event.write_firmware device true,
            Event.unlock device], ?_, ?_, ?_, ?_, ?_⟩
          · simp [log, set_dev, fu_device_locker_release]
          · simp [hardware_under_lock]
          · intro d; by_cases hd : d = device <;> simp [hd]
          · intro d
            by_cases hd : d = device
            · subst hd; simp [log, set_dev, fu_device_locker_release]
            · simp [log, set_dev, fu_device_locker_release, Function.update_noteq hd]
          · intro h; simp [no_relock, h]
  · unfold fu_plugin_backend_device_added
    by_cases hu : (st.dev device).is_udev_device = true
    · simp only [hu, Bool.not_true, Bool.false_eq_true, if_false, true_implies]
      have hn : (fu_synaptics_mst_device_new st device).1 = st.next_handle := rfl
      rw [hn]
      generalize hs0 : (fu_synaptics_mst_device_new st device).2 = s0
      have hs0t : s0.trace = st.trace := by rw [← hs0]; rfl
      have hs0d : ∀ d, d ≠ st.next_handle → s0.dev d = st.dev d := by
        intro d hd; rw [← hs0]
        simp [fu_synaptics_mst_device_new, set_dev, Function.update_noteq hd]
      have hs0n : (s0.dev st.next_handle).open_refcount = 0 := by
        rw [← hs0]; simp [fu_synaptics_mst_device_new, set_dev]
      unfold fu_device_locker_new
      cases ho : hw.open_result s0 st.next_handle with
      | some e =>
        refine ⟨[Event.lock_failed st.next_handle], ?_, rfl, ?_, ?_, ?_⟩
        · simp [log, hs0t]
        · intro d; simp
        · intro d hd; simp [log, hs0d d hd]
        · simp [log, hs0n]
      | none =>
        simp only []
        generalize hs1 : log (set_dev s0 st.next_handle
          { s0.dev st.next_handle with
            open_refcount := (s0.dev st.next_handle).open_refcount + 1 })
          (Event.lock_ok st.next_handle) = s1
        have hs1t : s1.trace = st.trace ++ [Event.lock_ok st.next_handle] := by
          rw [← hs1]; simp [log, set_dev, hs0t]
        have hs1d : ∀ d, d ≠ st.next_handle → s1.dev d = st.dev d := by
          intro d hd; rw [← hs1]; simp [log, set_dev, Function.update_noteq hd, hs0d d hd]
        have hs1n : (s1.dev st.next_handle).open_refcount = 1 := by
          rw [← hs1]; simp [log, set_dev, hs0n]
        obtain ⟨_, _, _, _, _, _, h7, evs, ht, _, _, hh, hr, _⟩ :=
          device_rescan_frame hw s1 st.next_handle
        refine ⟨Event.lock_ok st.next_handle :: (evs ++ [Event.unlock st.next_handle]),
          ?_, ?_, ?_, ?_, ?_⟩
        · simp [log, set_dev, fu_device_locker_release, ht, hs1t]
        · simp [hardware_under_lock, hh]
        · intro d
          have := hr d
          by_cases hd : d = st.next_handle
          · subst hd
            simp [List.count_append, List.count_cons, this]
          · have hd' : ¬ st.next_handle = d := fun h => hd h.symm
            simp [List.count_append, List.count_cons, this, hd']
        · intro d hd
          simp [log, set_dev, fu_device_locker_release, Function.update_noteq hd,
            (h7 d).1, hs1d d hd]
        · simp [log, set_dev, fu_device_locker_release, (h7 st.next_handle).1, hs1n]
    · have hu' : (st.dev device).is_udev_device = false := by simpa using hu
      simp only [hu', Bool.not_false, if_true]
      refine ⟨[], ?_, ?_, ?_, ?_⟩ <;> simp [hardware_under_lock, locks_released]

/-- A failed rescan of device 2 of `st_three`, entered unlocked, and a device added on
working hardware. -/
theorem lock_discipline_witness :
    (∃ evs, (fu_plugin_synaptics_mst_device_rescan hw_absent st_three 2).trace =
        st_three.trace ++ evs ∧
      no_relock (fun d => (st_three.dev d).open_refcount) evs = true) ∧
    (∃ evs, (fu_plugin_update hw_ok st_three 2 [] 0).2.trace = st_three.trace ++ evs ∧
      no_relock (fun d => (st_three.dev d).open_refcount) evs = true) ∧
    ((fu_plugin_backend_device_added hw_ok st_init 0).2.dev st_init.next_handle).open_refcount
      = 0 :=
  ⟨(lock_discipline hw_absent st_three 2 [] 0).1.elim
      (fun evs h => ⟨evs, h.1, h.2.2.2.2 (by decide)⟩),
   (lock_discipline hw_ok st_three 2 [] 0).2.1.elim
      (fun evs h => ⟨evs, h.1, h.2.2.2.2 (by decide)⟩),
   (lock_discipline hw_ok st_init 0 [] 0).2.2.elim (fun _ h => h.2.2.2.2 (by decide))⟩

/-! ## synaptics-mst: device added -/

/-- C8, as the claim states it, fails: when the handler's lock on the new device cannot be
acquired, `fu_plugin_backend_device_added` returns failure with the error of the lock. -/
theorem device_added_lock_failure_counterexample :
    (st_init.dev 0).is_udev_device = true ∧
    (added_lock hw_closed st_init 0).1 = GResult.FALSE { code := 4 } ∧
    ¬ ((fu_plugin_backend_device_added hw_closed st_init 0).1 = GResult.TRUE) := by
  decide

/-- C8, amended: for a udev device, `fu_plugin_backend_device_added` creates a new device
object and locks it. If that lock fails, the handler returns failure with the error of the
lock, and the device is added neither to the Registry nor to `priv->devices`. If it succeeds
and the nested lock of `fu_plugin_synaptics_mst_device_rescan` or the rescan fails, the
device is not added to the Registry, it is appended to `priv->devices`, and the handler
returns success. If both locks and the rescan succeed, the device is added to the Registry
and marked registered, appended to `priv->devices`, and the handler returns success. -/
theorem device_added_outcomes (hw : Hw) (st : PluginState) (device : Nat)
    (hudev : (st.dev device).is_udev_device = true) :
    (∀ error, (added_lock hw st device).1 = GResult.FALSE error →
      (fu_plugin_backend_device_added hw st device).1 = GResult.FALSE error ∧
      (fu_plugin_backend_device_added hw st device).2.registry = st.registry ∧
      (fu_plugin_backend_device_added hw st device).2.devices = st.devices) ∧
    ((added_lock hw st device).1 = GResult.TRUE →
      ((∃ error, (added_rescan_lock hw st device).1 = GResult.FALSE error) ∨
       ((added_rescan_lock hw st device).1 = GResult.TRUE ∧
        ∃ error, (added_rescan hw st device).1 = GResult.FALSE error)) →
      (fu_plugin_backend_device_added hw st device).1 = GResult.TRUE ∧
      (fu_plugin_backend_device_added hw st device).2.registry = st.registry ∧
      (fu_plugin_backend_device_added hw st device).2.devices =
        st.devices ++ [st.next_handle]) ∧
    ((added_lock hw st device).1 = GResult.TRUE →
      (added_rescan_lock hw st device).1 = GResult.TRUE →
      (added_rescan hw st device).1 = GResult.TRUE →
      (fu_plugin_backend_device_added hw st device).1 = GResult.TRUE ∧
      st.next_handle ∈ (fu_plugin_backend_device_added hw st device).2.registry ∧
      (fu_plugin_backend_device_added hw st device).2.registry =
        (if st.next_handle ∈ st.registry then st.registry
         else st.registry ++ [st.next_handle]) ∧
      fu_device_has_flag ((fu_plugin_backend_device_added hw st device).2.dev st.next_handle)
        FwupdDeviceFlag.REGISTERED = true ∧
      (fu_plugin_backend_device_added hw st device).2.devices =
        st.devices ++ [st.next_handle]) := by
  unfold added_rescan added_rescan_lock added_lock fu_plugin_backend_device_added
  simp only [hudev, Bool.not_true, Bool.false_eq_true, if_false]
  have hn : (fu_synaptics_mst_device_new st device).1 = st.next_handle := rfl
  rw [hn]
  generalize hs0 : (fu_synaptics_mst_device_new st device).2 = s0
  have hs0r : s0.registry = st.registry := by rw [← hs0]; rfl
  have hs0v : s0.devices = st.devices := by rw [← hs0]; rfl
  have hs0f : (s0.dev st.next_handle).flags = [] := by
    rw [← hs0]; simp [fu_synaptics_mst_device_new, set_dev]
  unfold fu_device_locker_new
  cases ho : hw.open_result s0 st.next_handle with
  | some e => simp [log, hs0r, hs0v]
  | none =>
    simp only []
    generalize hs1 : log (set_dev s0 st.next_handle
      { s0.dev st.next_handle with
        open_refcount := (s0.dev st.next_handle).open_refcount + 1 })
      (Event.lock_ok st.next_handle) = s1
    have hs1r : s1.registry = st.registry := by rw [← hs1]; simp [log, set_dev, hs0r]
    have hs1v : s1.devices = st.devices := by rw [← hs1]; simp [log, set_dev, hs0v]
    have hs1f : (s1.dev st.next_handle).flags = [] := by
      rw [← hs1]; simp [log, set_dev, hs0f]
    unfold fu_plugin_synaptics_mst_device_rescan fu_device_locker_new
    cases ho2 : hw.open_result s1 st.next_handle with
    | some e2 => simp [log, fu_device_locker_release, set_dev, hs1r, hs1v]
    | none =>
      simp only []
      unfold fu_device_rescan
      cases hr : hw.rescan_result (log (set_dev s1 st.next_handle
          { s1.dev st.next_handle with
            open_refcount := (s1.dev st.next_handle).open_refcount + 1 })
          (Event.lock_ok st.next_handle)) st.next_handle with
      | some e3 =>
        simp [log, fu_device_locker_release, set_dev, hs1r, hs1v, hs1f, fu_device_has_flag]
      | none =>
        simp [log, fu_device_locker_release, set_dev, hs1r, hs1v, hs1f, fu_device_has_flag,
          fu_plugin_device_add, fu_device_add_flag]
        split <;> simp_all

/-- A device added on hardware that cannot be opened, on hardware that answers no rescan,
and on working hardware. -/
theorem device_added_outcomes_witness :
    ((fu_plugin_backend_device_added hw_closed st_init 0).1 = GResult.FALSE { code := 4 } ∧
      (fu_plugin_backend_device_added hw_closed st_init 0).2.registry = st_init.registry ∧
      (fu_plugin_backend_device_added hw_closed st_init 0).2.devices = st_init.devices) ∧
    ((fu_plugin_backend_device_added hw_absent st_init 0).1 = GResult.TRUE ∧
      (fu_plugin_backend_device_added hw_absent st_init 0).2.registry = st_init.registry ∧
      (fu_plugin_backend_device_added hw_absent st_init 0).2.devices =
        st_init.devices ++ [st_init.next_handle]) ∧
    ((fu_plugin_backend_device_added hw_ok st_init 0).1 = GResult.TRUE ∧
      st_init.next_handle ∈ (fu_plugin_backend_device_added hw_ok st_init 0).2.registry ∧
      (fu_plugin_backend_device_added hw_ok st_init 0).2.registry =
        (if st_init.next_handle ∈ st_init.registry then st_init.registry
         else st_init.registry ++ [st_init.next_handle]) ∧
      fu_device_has_flag
        ((fu_plugin_backend_device_added hw_ok st_init 0).2.dev st_init.next_handle)
        FwupdDeviceFlag.REGISTERED = true ∧
      (fu_plugin_backend_device_added hw_ok st_init 0).2.devices =
        st_init.devices ++ [st_init.next_handle]) :=
  ⟨(device_added_outcomes hw_closed st_init 0 (by decide)).1 { code := 4 } (by decide),
   (device_added_outcomes hw_absent st_init 0 (by decide)).2.1 (by decide)
     (Or.inr ⟨by decide, ⟨{ code := 2 }, by decide⟩⟩),
   (device_added_outcomes hw_ok st_init 0 (by decide)).2.2 (by decide) (by decide)
     (by decide)⟩

/-! ## synaptics-mst: the debounce timer -/

/-- A timer armed at `now` for the replug delay is ready more than 4.75 s and at most 5.75 s
later. -/
theorem expiration_bounds (perturb_hash now : Nat) :
    now + 4750000 <
      g_timeout_set_expiration perturb_hash FU_SYNAPTICS_MST_DRM_REPLUG_DELAY now ∧
    g_timeout_set_expiration perturb_hash FU_SYNAPTICS_MST_DRM_REPLUG_DELAY now ≤
      now + 5750000 := by
  unfold g_timeout_set_expiration FU_SYNAPTICS_MST_DRM_REPLUG_DELAY
  simp only []
  have hp : perturb_hash % 1000000 < 1000000 := Nat.mod_lt _ (by decide)
  split <;> omega

/-- With no timer ready by `t` an iteration of the main loop only advances the clock. -/
theorem iteration_idle (hw : Hw) (st : PluginState) (t : Nat)
    (h : timer_consistent st (max st.now t)) :
    g_main_context_iteration hw t st = { st with now := max st.now t } := by
  unfold g_main_context_iteration
  rcases h with ⟨_, hs⟩ | ⟨_, due, hdue, hs⟩
  · simp [hs]
  · have hf : st.sources.filter (fun s => decide (s.2 ≤ max st.now t)) = [] := by
      rw [hs]
      have : ¬ due ≤ max st.now t := by omega
      simp only [List.filter, this, decide_False]
    rw [hf]
    rfl

/-- The handler of a `changed` notification from a `drm` device: whatever was pending is
cancelled and one new timer is pending, armed at the current time. -/
theorem changed_handler (perturb_hash : Nat) (device : Nat) (st : PluginState) (t : Nat)
    (hudev : (st.dev device).is_udev_device = true)
    (hdrm : (st.dev device).subsystem = some "drm")
    (h : timer_consistent st t) :
    (fu_plugin_backend_device_changed perturb_hash st device).2.now = st.now ∧
    (fu_plugin_backend_device_changed perturb_hash st device).2.drm_changed_id ≠ 0 ∧
    (fu_plugin_backend_device_changed perturb_hash st device).2.sources =
      [((fu_plugin_backend_device_changed perturb_hash st device).2.drm_changed_id,
        g_timeout_set_expiration perturb_hash FU_SYNAPTICS_MST_DRM_REPLUG_DELAY st.now)] ∧
    (fu_plugin_backend_device_changed perturb_hash st device).2.trace = st.trace ∧
    (fu_plugin_backend_device_changed perturb_hash st device).2.dev = st.dev ∧
    (fu_plugin_backend_device_changed perturb_hash st device).2.devices = st.devices := by
  unfold fu_plugin_backend_device_changed
  simp only [hudev, hdrm, g_strcmp0_eq]
  rcases h with ⟨hz, hs⟩ | ⟨hnz, due, _, hs⟩
  · simp [hz, hs, g_timeout_add_seconds]
  · simp [hnz, hs, g_timeout_add_seconds, g_source_remove]

/-- One `changed` notification from a `drm` device while no timer is ready. -/
theorem changed_step (hw : Hw) (perturb_hash : Nat) (device : Nat) (st : PluginState)
    (t : Nat)
    (hudev : (st.dev device).is_udev_device = true)
    (hdrm : (st.dev device).subsystem = some "drm")
    (hnow : st.now ≤ t) (h : timer_consistent st t) :
    (changed_at hw perturb_hash device st t).now = t ∧
    (changed_at hw perturb_hash device st t).drm_changed_id ≠ 0 ∧
    (changed_at hw perturb_hash device st t).sources =
      [((changed_at hw perturb_hash device st t).drm_changed_id,
        g_timeout_set_expiration perturb_hash FU_SYNAPTICS_MST_DRM_REPLUG_DELAY t)] ∧
    (changed_at hw perturb_hash device st t).trace = st.trace ∧
    (changed_at hw perturb_hash device st t).dev = st.dev ∧
    (changed_at hw perturb_hash device st t).devices = st.devices := by
  unfold changed_at
  rw [iteration_idle hw st t (by rw [max_eq_right hnow]; exact h), max_eq_right hnow]
  exact changed_handler perturb_hash device { st with now := t } t hudev hdrm h

/-- The callback body run at clock `T`: the whole of `priv->devices` is rescanned, in order,
and neither the clock nor the timer sources are touched. -/
theorem rescan_cb_body (hw : Hw) (st : PluginState) (T : Nat) :
    (fu_plugin_synaptics_mst_rescan hw (log { st with now := T } (Event.rescan_cb T))).now
      = T ∧
    (fu_plugin_synaptics_mst_rescan hw
      (log { st with now := T } (Event.rescan_cb T))).devices = st.devices ∧
    (fu_plugin_synaptics_mst_rescan hw
      (log { st with now := T } (Event.rescan_cb T))).sources = st.sources ∧
    (∀ d, ((fu_plugin_synaptics_mst_rescan hw
        (log { st with now := T } (Event.rescan_cb T))).dev d).is_udev_device =
        (st.dev d).is_udev_device ∧
      ((fu_plugin_synaptics_mst_rescan hw
        (log { st with now := T } (Event.rescan_cb T))).dev d).subsystem =
        (st.dev d).subsystem) ∧
    ∃ evs, (fu_plugin_synaptics_mst_rescan hw
        (log { st with now := T } (Event.rescan_cb T))).trace =
        st.trace ++ Event.rescan_cb T :: evs ∧
      lock_attempts evs = st.devices ∧ rescan_cb_times evs = [] := by
  rw [rescan_eq_foldl]
  generalize hs1 : log { st with now := T } (Event.rescan_cb T) = s1
  have hs1n : s1.now = T := by rw [← hs1]; rfl
  have hs1t : s1.trace = st.trace ++ [Event.rescan_cb T] := by rw [← hs1]; rfl
  have hs1d : s1.dev = st.dev := by rw [← hs1]; rfl
  have hs1v : s1.devices = st.devices := by rw [← hs1]; rfl
  have hs1s : s1.sources = st.sources := by rw [← hs1]; rfl
  obtain ⟨g1, _, g3, g4, _, g6, evs, ht, hl, hc⟩ := foldl_rescan_frame hw s1.devices s1
  refine ⟨g3.trans hs1n, g1.trans hs1v, g4.trans hs1s, ?_, evs, ?_, hl.trans hs1v, hc⟩
  · intro d
    simpa [hs1d] using g6 d
  · simp [ht, hs1t]

/-- The one pending timer is ready and the main loop iterates: the callback runs once, the
whole of `priv->devices` is rescanned, `drm_changed_id` is cleared and no timer is left. -/
theorem timer_fires (hw : Hw) (st : PluginState) (due T : Nat)
    (hs : st.sources = [(st.drm_changed_id, due)]) (hnow : st.now ≤ T) (hT : due ≤ T) :
    g_main_context_iteration hw T st =
      { fu_plugin_synaptics_mst_rescan hw (log { st with now := T } (Event.rescan_cb T)) with
        drm_changed_id := 0, sources := [] } := by
  obtain ⟨_, _, hsrc, _, _⟩ := rescan_cb_body hw st T
  unfold g_main_context_iteration
  rw [max_eq_right hnow]
  have hf : st.sources.filter (fun s => decide (s.2 ≤ T)) = [(st.drm_changed_id, due)] := by
    rw [hs]; simp [List.filter, hT]
  have hmem : (st.drm_changed_id, due) ∈ ({ st with now := T } : PluginState).sources := by
    show (st.drm_changed_id, due) ∈ st.sources
    rw [hs]; simp
  rw [hf]
  simp only [List.foldl_cons, List.foldl_nil, if_pos hmem]
  unfold g_source_dispatch fu_plugin_synaptics_mst_rescan_cb
  simp only [Bool.false_eq_true, if_false, g_source_remove]
  rw [hsrc, hs]
  simp [List.filter]

/-- What the iteration that fires the one pending timer leaves behind. -/
theorem timer_fires_facts (hw : Hw) (st : PluginState) (due T : Nat)
    (hs : st.sources = [(st.drm_changed_id, due)]) (hnow : st.now ≤ T) (hT : due ≤ T) :
    (g_main_context_iteration hw T st).now = T ∧
    (g_main_context_iteration hw T st).drm_changed_id = 0 ∧
    (g_main_context_iteration hw T st).sources = [] ∧
    (∀ d, ((g_main_context_iteration hw T st).dev d).is_udev_device =
        (st.dev d).is_udev_device ∧
      ((g_main_context_iteration hw T st).dev d).subsystem = (st.dev d).subsystem) ∧
    ∃ evs, (g_main_context_iteration hw T st).trace = st.trace ++ Event.rescan_cb T :: evs ∧
      lock_attempts evs = st.devices ∧ rescan_cb_times evs = [] := by
  obtain ⟨c1, _, _, c4, c5⟩ := rescan_cb_body hw st T
  rw [timer_fires hw st due T hs hnow hT]
  exact ⟨c1, rfl, rfl, c4, c5⟩

/-- During and after a burst in which every notification comes before the pending timer is
ready, nothing is rescanned and exactly one timer is pending, the one armed by the last
notification. -/
theorem burst_invariant (hw : Hw) (perturb_hash : Nat) (device : Nat) :
    ∀ (ts : List Nat) (st : PluginState) (t : Nat),
      (st.dev device).is_udev_device = true → (st.dev device).subsystem = some "drm" →
      st.now ≤ t → timer_consistent st t → before_ready perturb_hash t ts = true →
      (burst hw perturb_hash device st (t :: ts)).now = ts.getLastD t ∧
      (burst hw perturb_hash device st (t :: ts)).drm_changed_id ≠ 0 ∧
      (burst hw perturb_hash device st (t :: ts)).sources =
        [((burst hw perturb_hash device st (t :: ts)).drm_changed_id,
          g_timeout_set_expiration perturb_hash FU_SYNAPTICS_MST_DRM_REPLUG_DELAY
            (ts.getLastD t))] ∧
      (burst hw perturb_hash device st (t :: ts)).trace = st.trace ∧
      (burst hw perturb_hash device st (t :: ts)).dev = st.dev ∧
      (burst hw perturb_hash device st (t :: ts)).devices = st.devices ∧
      ∀ s ∈ burst_states hw perturb_hash device st (t :: ts), s.sources.length ≤ 1 := by
  intro ts
  induction ts with
  | nil =>
    intro st t hudev hdrm hnow htimer _
    obtain ⟨h1, h2, h3, h4, h5, h6⟩ :=
      changed_step hw perturb_hash device st t hudev hdrm hnow htimer
    refine ⟨h1, h2, h3, h4, h5, h6, ?_⟩
    intro s hs
    simp only [burst_states, List.mem_cons, List.mem_nil_iff, or_false] at hs
    rcases hs with rfl | rfl
    · rw [iteration_idle hw st t (by rw [max_eq_right hnow]; exact htimer)]
      rcases htimer with ⟨_, hs⟩ | ⟨_, due, _, hs⟩ <;> simp [hs]
    · rw [h3]; simp
  | cons t2 ts ih =>
    intro st t hudev hdrm hnow htimer hwin
    obtain ⟨h1, h2, h3, h4, h5, h6⟩ :=
      changed_step hw perturb_hash device st t hudev hdrm hnow htimer
    simp only [before_ready, Bool.and_eq_true, decide_eq_true_eq] at hwin
    obtain ⟨⟨hle, hlt⟩, hrest⟩ := hwin
    have hcons : timer_consistent (changed_at hw perturb_hash device st t) t2 :=
      Or.inr ⟨h2, _, hlt, h3⟩
    obtain ⟨g1, g2, g3, g4, g5, g6, g7⟩ := ih (changed_at hw perturb_hash device st t) t2
      (by rw [h5]; exact hudev) (by rw [h5]; exact hdrm) (by rw [h1]; exact hle) hcons hrest
    have hb : burst hw perturb_hash device st (t :: t2 :: ts) =
        burst hw perturb_hash device (changed_at hw perturb_hash device st t) (t2 :: ts) :=
      rfl
    have hlast : (t2 :: ts).getLastD t = ts.getLastD t2 := by
      cases ts <;> simp [List.getLastD]
    rw [hb, hlast]
    refine ⟨g1, g2, g3, g4.trans h4, g5.trans h5, g6.trans h6, ?_⟩
    intro s hs
    rw [burst_states] at hs
    simp only [List.mem_cons] at hs
    rcases hs with rfl | rfl | hs
    · rw [iteration_idle hw st t (by rw [max_eq_right hnow]; exact htimer)]
      rcases htimer with ⟨_, hs⟩ | ⟨_, due, _, hs⟩ <;> simp [hs]
    · rw [h3]; simp
    · exact g7 s (by simpa only [List.mem_cons] using hs)

/-- C5, as the claim states it, fails: the `drm` device 0 of `st_three` sends notifications at
2.0 s and 6.9 s, less than 5 seconds apart. With a session perturbation of 0.885 s the timer
armed at 2.0 s is ready at 6.885 s, so it runs the rescan before the second notification is
handled, and the timer armed at 6.9 s runs it again: two passes, not one. -/
theorem debounce_early_timer_counterexample :
    (st_three.dev 0).is_udev_device = true ∧
    (st_three.dev 0).subsystem = some "drm" ∧
    within_window 2000000 [6900000] = true ∧
    rescan_cb_times (g_main_context_iteration hw_ok 11900000
      (burst hw_ok 885000 0 st_three [2000000, 6900000])).trace = [6900000, 11900000] ∧
    ¬ (rescan_cb_times (g_main_context_iteration hw_ok 11900000
        (burst hw_ok 885000 0 st_three [2000000, 6900000])).trace =
      [6900000 + FU_SYNAPTICS_MST_DRM_REPLUG_DELAY * G_USEC_PER_SEC]) := by
  have hb : burst hw_ok 885000 0 st_three [2000000, 6900000] =
      (fu_plugin_backend_device_changed 885000
        (g_main_context_iteration hw_ok 6900000
          (changed_at hw_ok 885000 0 st_three 2000000)) 0).2 := rfl
  obtain ⟨n1, _, s1, t1, d1, _⟩ := changed_step hw_ok 885000 0 st_three 2000000
    (by decide) (by decide) (by decide) (Or.inl ⟨rfl, rfl⟩)
  have e1 : g_timeout_set_expiration 885000 FU_SYNAPTICS_MST_DRM_REPLUG_DELAY 2000000 =
      6885000 := by decide
  rw [e1] at s1
  generalize changed_at hw_ok 885000 0 st_three 2000000 = S1 at hb n1 s1 t1 d1
  obtain ⟨n2, z2, q2, b4, evs2, b5, _, b6⟩ :=
    timer_fires_facts hw_ok S1 6885000 6900000 s1 (by omega) (by omega)
  generalize g_main_context_iteration hw_ok 6900000 S1 = S2 at hb b4 b5 z2 q2 n2
  obtain ⟨n3, _, s3, t3, _, _⟩ := changed_handler 885000 0 S2 0
    (by rw [(b4 0).1, d1]; decide) (by rw [(b4 0).2, d1]; decide) (Or.inl ⟨z2, q2⟩)
  rw [← hb, n2] at s3 n3
  rw [← hb] at t3
  have e3 : g_timeout_set_expiration 885000 FU_SYNAPTICS_MST_DRM_REPLUG_DELAY 6900000 =
      11885000 := by decide
  rw [e3] at s3
  generalize burst hw_ok 885000 0 st_three [2000000, 6900000] = B at s3 n3 t3
  obtain ⟨_, _, _, _, evs4, c5, _, c6⟩ :=
    timer_fires_facts hw_ok B 11885000 11900000 s3 (by omega) (by omega)
  have key : rescan_cb_times (g_main_context_iteration hw_ok 11900000 B).trace =
      [6900000, 11900000] := by
    rw [c5, t3, b5, t1]
    simp [rescan_cb_times_append, rescan_cb_times, b6, c6, st_three, st_init]
  refine ⟨by decide, by decide, by decide, key, ?_⟩
  rw [key]
  decide

/-- C5, amended: a `drm` device sends `changed` notifications at the times `t :: ts`, the
first not before the clock and with no earlier timer ready by then, each of the others before
the timer armed by the one before it is ready; GLib makes a timer armed at a time ready more
than 4.75 s and at most 5.75 s after that time, so it is enough that each notification comes
at most 4.75 s after the one before it. Then at every moment of the burst at most one timer
is pending; after the burst exactly one timer is pending, the one armed by the last
notification; a main-loop iteration before that timer is ready runs nothing; the first
iteration at or after it runs `fu_plugin_synaptics_mst_rescan_cb` exactly once, which
rescans every device of `priv->devices` in order, clears `drm_changed_id` to 0 and leaves no
timer pending; and the next notification starts a fresh timer. -/
theorem debounce_single_rescan (hw : Hw) (perturb_hash : Nat) (device : Nat)
    (st : PluginState) (t : Nat) (ts : List Nat) (T : Nat)
    (hudev : (st.dev device).is_udev_device = true)
    (hdrm : (st.dev device).subsystem = some "drm")
    (hnow : st.now ≤ t)
    (htimer : timer_consistent st t)
    (hburst : before_ready perturb_hash t ts = true)
    (hT : g_timeout_set_expiration perturb_hash FU_SYNAPTICS_MST_DRM_REPLUG_DELAY
      (ts.getLastD t) ≤ T) :
    (∀ s ∈ burst_states hw perturb_hash device st (t :: ts), s.sources.length ≤ 1) ∧
    (burst hw perturb_hash device st (t :: ts)).drm_changed_id ≠ 0 ∧
    (burst hw perturb_hash device st (t :: ts)).sources =
      [((burst hw perturb_hash device st (t :: ts)).drm_changed_id,
        g_timeout_set_expiration perturb_hash FU_SYNAPTICS_MST_DRM_REPLUG_DELAY
          (ts.getLastD t))] ∧
    (∀ now, now + 4750000 <
        g_timeout_set_expiration perturb_hash FU_SYNAPTICS_MST_DRM_REPLUG_DELAY now ∧
      g_timeout_set_expiration perturb_hash FU_SYNAPTICS_MST_DRM_REPLUG_DELAY now ≤
        now + 5750000) ∧
    (∀ T', T' < g_timeout_set_expiration perturb_hash FU_SYNAPTICS_MST_DRM_REPLUG_DELAY
        (ts.getLastD t) →
      (g_main_context_iteration hw T' (burst hw perturb_hash device st (t :: ts))).trace =
        st.trace ∧
      (g_main_context_iteration hw T' (burst hw perturb_hash device st (t :: ts))).sources =
        (burst hw perturb_hash device st (t :: ts)).sources) ∧
    g_main_context_iteration hw T (burst hw perturb_hash device st (t :: ts)) =
      { fu_plugin_synaptics_mst_rescan hw
          (log { burst hw perturb_hash device st (t :: ts) with now := T }
            (Event.rescan_cb T)) with
        drm_changed_id := 0, sources := [] } ∧
    (∃ evs, (g_main_context_iteration hw T
          (burst hw perturb_hash device st (t :: ts))).trace =
        st.trace ++ Event.rescan_cb T :: evs ∧
      lock_attempts evs = st.devices ∧ rescan_cb_times evs = []) ∧
    rescan_cb_times (g_main_context_iteration hw T
        (burst hw perturb_hash device st (t :: ts))).trace =
      rescan_cb_times st.trace ++ [T] ∧
    (g_main_context_iteration hw T
      (burst hw perturb_hash device st (t :: ts))).drm_changed_id = 0 ∧
    (g_main_context_iteration hw T (burst hw perturb_hash device st (t :: ts))).sources = [] ∧
    (∀ t', T ≤ t' →
      (changed_at hw perturb_hash device
        (g_main_context_iteration hw T (burst hw perturb_hash device st (t :: ts)))
        t').drm_changed_id ≠ 0 ∧
      (changed_at hw perturb_hash device
        (g_main_context_iteration hw T (burst hw perturb_hash device st (t :: ts)))
        t').sources =
        [((changed_at hw perturb_hash device
            (g_main_context_iteration hw T (burst hw perturb_hash device st (t :: ts)))
            t').drm_changed_id,
          g_timeout_set_expiration perturb_hash FU_SYNAPTICS_MST_DRM_REPLUG_DELAY t')]) := by
  obtain ⟨b1, b2, b3, b4, b5, b6, b7⟩ :=
    burst_invariant hw perturb_hash device ts st t hudev hdrm hnow htimer hburst
  have hlo := (expiration_bounds perturb_hash (ts.getLastD t)).1
  have f := timer_fires hw (burst hw perturb_hash device st (t :: ts)) _ T b3
    (by rw [b1]; omega) hT
  obtain ⟨c1, z, q, c4, evs, c5, c6, c7⟩ :=
    timer_fires_facts hw (burst hw perturb_hash device st (t :: ts)) _ T b3
      (by rw [b1]; omega) hT
  rw [b4] at c5
  rw [b6] at c6
  refine ⟨b7, b2, b3, expiration_bounds perturb_hash, ?_, f, ⟨evs, c5, c6, c7⟩, ?_, z, q, ?_⟩
  · intro T' hT'
    rw [iteration_idle hw _ T' (Or.inr ⟨b2, _, by rw [b1]; omega, b3⟩)]
    exact ⟨b4, rfl⟩
  · rw [c5]
    simp [rescan_cb_times_append, rescan_cb_times, c7]
  · intro t' ht'
    have hc := changed_step hw perturb_hash device
      (g_main_context_iteration hw T (burst hw perturb_hash device st (t :: ts))) t'
      (by rw [(c4 device).1, b5]; exact hudev) (by rw [(c4 device).2, b5]; exact hdrm)
      (by rw [c1]; exact ht') (Or.inl ⟨z, q⟩)
    exact ⟨hc.2.1, hc.2.2.1⟩

/-- A burst of four notifications from the `drm` device 0 of `st_three`, at 0.1 s, 2 s, 6.5 s
and 11 s with a session perturbation of 0.885 s: the last timer is ready at 15.885 s, and
the main-loop iteration at 15.9 s runs the one rescan, over devices 1, 2 and 3. -/
theorem debounce_single_rescan_witness :
    before_ready 885000 100000 [2000000, 6500000, 11000000] = true ∧
    (∀ s ∈ burst_states hw_absent 885000 0 st_three [100000, 2000000, 6500000, 11000000],
      s.sources.length ≤ 1) ∧
    (∃ evs, (g_main_context_iteration hw_absent 15900000
          (burst hw_absent 885000 0 st_three [100000, 2000000, 6500000, 11000000])).trace =
        st_three.trace ++ Event.rescan_cb 15900000 :: evs ∧
      lock_attempts evs = st_three.devices ∧ rescan_cb_times evs = []) ∧
    rescan_cb_times (g_main_context_iteration hw_absent 15900000
        (burst hw_absent 885000 0 st_three [100000, 2000000, 6500000, 11000000])).trace =
      rescan_cb_times st_three.trace ++ [15900000] ∧
    (g_main_context_iteration hw_absent 15900000
      (burst hw_absent 885000 0 st_three
        [100000, 2000000, 6500000, 11000000])).drm_changed_id = 0 :=
  ⟨by decide,
   (debounce_single_rescan hw_absent 885000 0 st_three 100000 [2000000, 6500000, 11000000]
      15900000 (by decide) (by decide) (by decide) (Or.inl ⟨rfl, rfl⟩) (by decide)
      (by decide)).1,
   (debounce_single_rescan hw_absent 885000 0 st_three 100000 [2000000, 6500000, 11000000]
      15900000 (by decide) (by decide) (by decide) (Or.inl ⟨rfl, rfl⟩) (by decide)
      (by decide)).2.2.2.2.2.2.1,
   (debounce_single_rescan hw_absent 885000 0 st_three 100000 [2000000, 6500000, 11000000]
      15900000 (by decide) (by decide) (by decide) (Or.inl ⟨rfl, rfl⟩) (by decide)
      (by decide)).2.2.2.2.2.2.2.1,
   (debounce_single_rescan hw_absent 885000 0 st_three 100000 [2000000, 6500000, 11000000]
      15900000 (by decide) (by decide) (by decide) (Or.inl ⟨rfl, rfl⟩) (by decide)
      (by decide)).2.2.2.2.2.2.2.2.1⟩

/-! ## The Registry invariant is kept by every entry point -/

/-- A state with the same Registry, device list, allocation mark and flags is consistent
when the original is. -/
theorem consistent_congr (st s : PluginState) (hr : s.registry = st.registry)
    (hn : s.next_handle = st.next_handle) (hv : s.devices = st.devices)
    (hf : ∀ d, (s.dev d).flags = (st.dev d).flags) (h : registry_consistent st) :
    registry_consistent s := by
  obtain ⟨h1, h2, h3⟩ := h
  refine ⟨?_, ?_, ?_⟩
  · intro d
    rw [hr, ← h1 d]
    simp [fu_device_has_flag, hf d]
  · rw [hr, hn]; exact h2
  · rw [hv, hn]; exact h3

/-- Acquiring a lock keeps the Registry invariant. -/
theorem consistent_locker_new (hw : Hw) (st : PluginState) (device : Nat)
    (h : registry_consistent st) :
    registry_consistent (fu_device_locker_new hw st device).2 := by
  apply consistent_congr st _ _ _ _ _ h <;> unfold fu_device_locker_new <;>
    cases hw.open_result st device <;> try rfl
  all_goals
    intro d
    by_cases hd : d = device
    · subst hd; simp [log, set_dev]
    · simp [log, set_dev, Function.update_noteq hd]

/-- Releasing a lock keeps the Registry invariant. -/
theorem consistent_release (st : PluginState) (device : Nat) (h : registry_consistent st) :
    registry_consistent (fu_device_locker_release st device) := by
  refine consistent_congr st (fu_device_locker_release st device) rfl rfl rfl ?_ h
  intro d
  by_cases hd : d = device
  · subst hd; simp [fu_device_locker_release, log, set_dev]
  · simp [fu_device_locker_release, log, set_dev, Function.update_noteq hd]

/-- A hardware rescan keeps the Registry invariant. -/
theorem consistent_rescan (hw : Hw) (st : PluginState) (device : Nat)
    (h : registry_consistent st) : registry_consistent (fu_device_rescan hw st device).2 := by
  apply consistent_congr st _ _ _ _ _ h <;> unfold fu_device_rescan <;>
    cases hw.rescan_result st device <;> first | rfl | exact fun _ => rfl

/-- A firmware write keeps the Registry invariant. -/
theorem consistent_write (hw : Hw) (st : PluginState) (device : Nat) (blob_fw : GBytes)
    (flags : FwupdInstallFlags) (h : registry_consistent st) :
    registry_consistent (fu_device_write_firmware hw st device blob_fw flags).2 := by
  apply consistent_congr st _ _ _ _ _ h <;> unfold fu_device_write_firmware <;>
    cases hw.write_result st device blob_fw flags <;> first | rfl | exact fun _ => rfl

/-- Adding an allocated device to the Registry keeps the invariant. -/
theorem consistent_add (st : PluginState) (device : Nat) (hlt : device < st.next_handle)
    (h : registry_consistent st) : registry_consistent (fu_plugin_device_add st device) := by
  obtain ⟨h1, h2, h3⟩ := h
  refine ⟨?_, ?_, h3⟩
  · intro d
    have h1d := h1 d
    by_cases hd : d = device
    · subst hd
      by_cases hm : d ∈ st.registry
      · have := h1d.mpr hm
        simp_all [fu_plugin_device_add, log, set_dev, fu_device_add_flag, fu_device_has_flag]
      · have : ¬ fu_device_has_flag (st.dev d) FwupdDeviceFlag.REGISTERED = true :=
          fun hf => hm (h1d.mp hf)
        simp_all [fu_plugin_device_add, log, set_dev, fu_device_add_flag, fu_device_has_flag]
    · simp only [fu_plugin_device_add, log, set_dev, Function.update_noteq hd]
      rw [h1d]
      split <;> simp [hd]
  · intro d hd
    simp only [fu_plugin_device_add, log, set_dev] at hd ⊢
    split at hd
    · exact h2 d hd
    · rcases List.mem_append.mp hd with hd | hd
      · exact h2 d hd
      · simp at hd; omega

/-- Removing a device from the Registry keeps the invariant. -/
theorem consistent_remove (st : PluginState) (device : Nat) (h : registry_consistent st) :
    registry_consistent (fu_plugin_device_remove st device) := by
  obtain ⟨h1, h2, h3⟩ := h
  refine ⟨?_, ?_, h3⟩
  · intro d
    have h1d := h1 d
    by_cases hd : d = device
    · subst hd
      simp [fu_plugin_device_remove, log, set_dev, fu_device_remove_flag, fu_device_has_flag,
        List.mem_filter]
    · simp only [fu_plugin_device_remove, log, set_dev, Function.update_noteq hd]
      rw [h1d]
      simp [List.mem_filter, hd]
  · intro d hd
    simp only [fu_plugin_device_remove, log, set_dev, List.mem_filter] at hd
    exact h2 d hd.1

/-- The locker allocates no device object. -/
theorem locker_new_next_handle (hw : Hw) (st : PluginState) (device : Nat) :
    (fu_device_locker_new hw st device).2.next_handle = st.next_handle := by
  unfold fu_device_locker_new
  cases hw.open_result st device <;> rfl

/-- A hardware rescan allocates no device object. -/
theorem rescan_next_handle (hw : Hw) (st : PluginState) (device : Nat) :
    (fu_device_rescan hw st device).2.next_handle = st.next_handle := by
  unfold fu_device_rescan
  cases hw.rescan_result st device <;> rfl

/-- `fu_plugin_synaptics_mst_device_rescan` keeps the Registry invariant. -/
theorem consistent_device_rescan (hw : Hw) (st : PluginState) (device : Nat)
    (hlt : device < st.next_handle) (h : registry_consistent st) :
    registry_consistent (fu_plugin_synaptics_mst_device_rescan hw st device) := by
  unfold fu_plugin_synaptics_mst_device_rescan
  have hl := consistent_locker_new hw st device h
  have hln := locker_new_next_handle hw st device
  split
  · rename_i e st1 heq
    rw [heq] at hl
    exact hl
  · rename_i st1 heq
    rw [heq] at hl hln
    have hr := consistent_rescan hw st1 device hl
    have hrn := rescan_next_handle hw st1 device
    split
    · rename_i e st2 heq2
      rw [heq2] at hr
      split
      · exact consistent_release _ _ (consistent_remove _ _ hr)
      · exact consistent_release _ _ hr
    · rename_i st2 heq2
      rw [heq2] at hr hrn
      refine consistent_release _ _ (consistent_add _ _ ?_ hr)
      simp only [] at hrn hln
      omega

/-- `fu_plugin_synaptics_mst_rescan` keeps the Registry invariant. -/
theorem consistent_rescan_all (hw : Hw) (st : PluginState) (h : registry_consistent st) :
    registry_consistent (fu_plugin_synaptics_mst_rescan hw st) := by
  rw [rescan_eq_foldl]
  have key : ∀ (ds : List Nat) (s : PluginState), (∀ d ∈ ds, d < s.next_handle) →
      registry_consistent s →
      registry_consistent (ds.foldl (fu_plugin_synaptics_mst_device_rescan hw) s) := by
    intro ds
    induction ds with
    | nil => intro s _ hs; exact hs
    | cons d ds ih =>
      intro s hlt hs
      simp only [List.foldl_cons]
      apply ih
      · intro x hx
        rw [(device_rescan_frame hw s d).2.2.2.2.2.1]
        exact hlt x (List.mem_cons_of_mem _ hx)
      · exact consistent_device_rescan hw s d (hlt d (List.mem_cons_self _ _)) hs
  exact key st.devices st h.2.2 h

/-- `fu_plugin_update` keeps the Registry invariant. -/
theorem consistent_update (hw : Hw) (st : PluginState) (device : Nat) (blob_fw : GBytes)
    (flags : FwupdInstallFlags) (h : registry_consistent st) :
    registry_consistent (fu_plugin_update hw st device blob_fw flags).2 := by
  unfold fu_plugin_update
  have hl := consistent_locker_new hw st device h
  split
  · rename_i e st1 heq
    rw [heq] at hl
    exact hl
  · rename_i st1 heq
    rw [heq] at hl
    have hr := consistent_write hw st1 device blob_fw flags hl
    split
    · rename_i e st2 heq2
      rw [heq2] at hr
      exact consistent_release _ _ hr
    · rename_i st2 heq2
      rw [heq2] at hr
      split
      · exact consistent_release _ _ (consistent_remove _ _ hr)
      · exact consistent_release _ _ hr

/-- `fu_plugin_backend_device_added` keeps the Registry invariant. -/
theorem consistent_added (hw : Hw) (st : PluginState) (device : Nat)
    (h : registry_consistent st) :
    registry_consistent (fu_plugin_backend_device_added hw st device).2 := by
  unfold fu_plugin_backend_device_added
  split
  · exact h
  · have h0 : registry_consistent (fu_synaptics_mst_device_new st device).2 := by
      obtain ⟨h1, h2, h3⟩ := h
      refine ⟨?_, ?_, ?_⟩
      · intro d
        by_cases hd : d = st.next_handle
        · subst hd
          have : st.next_handle ∉ st.registry := fun hm => Nat.lt_irrefl _ (h2 _ hm)
          simp [fu_synaptics_mst_device_new, set_dev, fu_device_has_flag, this]
        · simpa [fu_synaptics_mst_device_new, set_dev, Function.update_noteq hd] using h1 d
      · intro d hd
        exact Nat.lt_succ_of_lt (h2 d hd)
      · intro d hd
        exact Nat.lt_succ_of_lt (h3 d hd)
    have hn : (fu_synaptics_mst_device_new st device).1 = st.next_handle := rfl
    have hn0 : (fu_synaptics_mst_device_new st device).2.next_handle = st.next_handle + 1 :=
      rfl
    simp only [hn]
    have hl := consistent_locker_new hw _ st.next_handle h0
    have hln := locker_new_next_handle hw (fu_synaptics_mst_device_new st device).2
      st.next_handle
    split
    · rename_i e st2 heq
      rw [heq] at hl
      exact hl
    · rename_i st2 heq
      rw [heq] at hl hln
      simp only [] at hln
      have hr := consistent_device_rescan hw st2 st.next_handle (by omega) hl
      have hrn := (device_rescan_frame hw st2 st.next_handle).2.2.2.2.2.1
      apply consistent_release
      obtain ⟨r1, r2, r3⟩ := hr
      refine ⟨r1, r2, ?_⟩
      intro d hd
      rcases List.mem_append.mp hd with hd | hd
      · exact r3 d hd
      · simp only [List.mem_singleton] at hd
        subst hd
        show _ < (fu_plugin_synaptics_mst_device_rescan hw st2 _).next_handle
        omega

/-- The state after `fu_plugin_init` satisfies the Registry invariant. -/
theorem consistent_init : registry_consistent st_init := by
  refine ⟨?_, ?_, ?_⟩ <;> intro d <;> simp [st_init, udev_device, fu_device_has_flag]

end FwupdPlugins
